import Mathlib

/-!
Verification development for the TripMate travel agent.

This file gives a shallow embedding of the caching / memory-merge core of
the TripMate repository (`src/tripmate/`): the travel-memory merge
(`agent.TripMateAgent._update_memory` / `extractor.TravelInfoExtractor.update_memory`),
the gap-filling defaults (`utils.make_reasonable_assumptions`), the cache-key
fingerprint (`utils.generate_cache_key`), the airport-code resolver
(`utils.get_airport_code`), the hotel / flight provider adapters
(`hotel_service.HotelService.search_hotels`,
`flight_service.FlightService.search_flights`) and the cache reuse path of
`agent.TripMateAgent.plan_trip`.

Modelling conventions:
  - Python `None` is `Option.none`; Python falsiness of a string field
    (`not memory["destination"]`) is `none` or the empty string.
  - JSON payloads are an inductive `JVal`; JSON numbers are modelled as
    integers (the claims under study never depend on fractional values).
  - Python statements that can raise are modelled in the `Except Unit` monad;
    a `try/except` wrapper is an explicit `match` on the body's outcome.
  - The md5 fingerprint of `generate_cache_key` is modelled by its digest
    input, the key-sorted association list produced by
    `json.dumps(params, sort_keys=True)`: equal parameter sets give equal
    digest inputs, and distinct canonical forms give distinct digest inputs
    (md5 collision resistance is assumed, as the spec's "stable,
    collision-resistant digest" does).
  - Dates are proleptic-Gregorian triples with day-by-day addition,
    matching `datetime.timedelta` arithmetic on valid dates; `strftime` /
    `strptime` with format `%Y-%m-%d` are modelled by `formatDate` /
    `parseDate` below.
-/

namespace TripMate

/-- JSON-like Python values appearing in provider payloads and records. -/
inductive JVal where
  | null : JVal
  | bool : Bool → JVal
  | num : Int → JVal
  | str : String → JVal
  | arr : List JVal → JVal
  | obj : List (String × JVal) → JVal

/-- Python truthiness of a `JVal` (`if v:`). -/
def pyTruthy : JVal → Bool
  | .null => false
  | .bool b => b
  | .num n => !(n == 0)
  | .str s => !s.data.isEmpty
  | .arr l => !l.isEmpty
  | .obj l => !l.isEmpty

/-- Lookup in a JSON object association list, first binding wins
(Python dicts have unique keys; `d.get(k)`). -/
def getJ (l : List (String × JVal)) (k : String) : Option JVal :=
  (l.find? (fun kv => kv.1 == k)).map (·.2)

/-- Truthiness of an optional Python string (`None` and `""` are falsy). -/
def truthyStr : Option String → Bool
  | none => false
  | some s => !s.data.isEmpty

/-! ### Dates

`datetime` arithmetic restricted to what the source uses: day addition and
`%Y-%m-%d` parsing/formatting. -/

/-- Gregorian leap-year test. -/
def isLeap (y : Nat) : Bool :=
  y % 4 == 0 && (!(y % 100 == 0) || y % 400 == 0)

/-- Number of days in a month (months are 1-based). -/
def daysInMonth (y m : Nat) : Nat :=
  if m == 2 then (if isLeap y then 29 else 28)
  else if m == 4 || m == 6 || m == 9 || m == 11 then 30
  else 31

/-- A calendar date, year-month-day. -/
structure Ymd where
  year : Nat
  month : Nat
  day : Nat
deriving DecidableEq

/-- The day after a given date, with month/year rollover. -/
def nextDay (x : Ymd) : Ymd :=
  if x.day < daysInMonth x.year x.month then ⟨x.year, x.month, x.day + 1⟩
  else if x.month < 12 then ⟨x.year, x.month + 1, 1⟩
  else ⟨x.year + 1, 1, 1⟩

/-- Date plus `n` days (`date + timedelta(days=n)`). -/
def addDays (x : Ymd) : Nat → Ymd
  | 0 => x
  | n + 1 => addDays (nextDay x) n

/-- Numeric string padded with leading zeros to width 2. -/
def pad2 (n : Nat) : String :=
  if n < 10 then "0" ++ toString n else toString n

/-- Numeric string padded with leading zeros to width 4. -/
def pad4 (n : Nat) : String :=
  if n < 10 then "000" ++ toString n
  else if n < 100 then "00" ++ toString n
  else if n < 1000 then "0" ++ toString n
  else toString n

/-- The `strftime('%Y-%m-%d')` rendering of a date. -/
def formatDate (x : Ymd) : String :=
  pad4 x.year ++ "-" ++ pad2 x.month ++ "-" ++ pad2 x.day

/-- Split a character list on the `-` separator. -/
def splitDash : List Char → List (List Char)
  | [] => [[]]
  | c :: rest =>
    let r := splitDash rest
    if c == '-' then [] :: r
    else match r with
      | [] => [[c]]
      | g :: gs => (c :: g) :: gs

/-- Digits-only character list to its numeric value. -/
def digitsToNat : List Char → Option Nat
  | [] => some 0
  | c :: rest =>
    if '0' ≤ c && c ≤ '9' then
      (digitsToNat rest).map (fun v => (c.toNat - '0'.toNat) * 10 ^ rest.length + v)
    else none

/-- A `strptime(s, '%Y-%m-%d')` model: three dash-separated digit groups
(year up to 4 digits, month/day up to 2), validated against the calendar.
Returns `none` where the Python raises `ValueError`. -/
def parseDate (s : String) : Option Ymd :=
  match splitDash s.data with
  | [ys, ms, ds] =>
    if !ys.isEmpty && ys.length ≤ 4 && !ms.isEmpty && ms.length ≤ 2
        && !ds.isEmpty && ds.length ≤ 2 then
      match digitsToNat ys, digitsToNat ms, digitsToNat ds with
      | some y, some m, some d =>
        if 1 ≤ y && y ≤ 9999 && 1 ≤ m && m ≤ 12 && 1 ≤ d && d ≤ daysInMonth y m then
          some ⟨y, m, d⟩
        else none
      | _, _, _ => none
    else none
  | _ => none

/-! ### Travel memory and the merge operation -/

/-- The session memory initialised in `TripMateAgent.__init__`. -/
structure Memory where
  origin : Option String
  destination : Option String
  transit_cities : List String
  check_in_date : Option String
  check_out_date : Option String
  budget : Option Int
  hotel_preference : Option String
  num_adults : Int
  transportation : List String
deriving DecidableEq

/-- The empty memory created at session start. -/
def initialMemory : Memory :=
  ⟨none, none, [], none, none, none, none, 1, []⟩

/-- An extraction patch (`new_info`): for each memory field, `none` models the
key being absent from the extracted JSON object or bound to `null` (both are
skipped identically by the merge loop), `some v` a present non-null value. -/
structure Patch where
  origin : Option String
  destination : Option String
  transit_cities : Option (List String)
  check_in_date : Option String
  check_out_date : Option String
  budget : Option Int
  hotel_preference : Option String
  num_adults : Option Int
  transportation : Option (List String)
deriving DecidableEq

/-- The patch whose every field is absent. -/
def emptyPatch : Patch :=
  ⟨none, none, none, none, none, none, none, none, none⟩

/-- One step of the generic merge loop of `_update_memory` on a scalar field:
assign when the new value is non-null and the current value is null or
different, keep otherwise. -/
def mergeScalar {α : Type} [DecidableEq α] (cur new : Option α) : Option α :=
  match new with
  | none => cur
  | some v => if cur = none ∨ ¬ some v = cur then some v else cur

/-- Generic merge loop applied to the never-null `num_adults` field. -/
def mergeAdults (cur : Int) (new : Option Int) : Int :=
  match new with
  | none => cur
  | some v => if ¬ v = cur then v else cur

/-- Generic merge loop applied to a list-valued field: a present (non-null)
patch list that differs from the current list replaces it. -/
def mergeListGeneric (cur : List String) (new : Option (List String)) : List String :=
  match new with
  | none => cur
  | some v => if ¬ v = cur then v else cur

/-- The dedicated list handling of `_update_memory`: when the patch list is
truthy, append each truthy element not already present. -/
def appendUnique (cur : List String) (new : Option (List String)) : List String :=
  match new with
  | none => cur
  | some l =>
    if l.isEmpty then cur
    else l.foldl (fun acc city =>
      if !city.data.isEmpty && !acc.contains city then acc ++ [city] else acc) cur

/-- The memory-merge operation `TripMateAgent._update_memory` (identical to
`TravelInfoExtractor.update_memory`): a generic loop over the patch fields
(which also treats the list-valued fields as plain values, replacing them
when they differ), followed by the dedicated dedup-append handling for
`transit_cities` and `transportation`. -/
def update_memory (m : Memory) (p : Patch) : Memory :=
  { origin := mergeScalar m.origin p.origin
    destination := mergeScalar m.destination p.destination
    transit_cities := appendUnique (mergeListGeneric m.transit_cities p.transit_cities) p.transit_cities
    check_in_date := mergeScalar m.check_in_date p.check_in_date
    check_out_date := mergeScalar m.check_out_date p.check_out_date
    budget := mergeScalar m.budget p.budget
    hotel_preference := mergeScalar m.hotel_preference p.hotel_preference
    num_adults := mergeAdults m.num_adults p.num_adults
    transportation := appendUnique (mergeListGeneric m.transportation p.transportation) p.transportation }

/-! ### Gap-filling defaults -/

/-- First if-block of `make_reasonable_assumptions`: destination known but
no check-in date → check-in = today + 14 days. -/
def fillCheckIn (today : Ymd) (m : Memory) : Memory :=
  if truthyStr m.destination && !truthyStr m.check_in_date then
    { m with check_in_date := some (formatDate (addDays today 14)) }
  else m

/-- Second if-block: check-in known but no check-out → check-out =
check-in + 7 days; the `strptime` of an unparseable stored check-in raises
(`Except.error`). -/
def fillCheckOut (m : Memory) : Except Unit Memory :=
  if truthyStr m.check_in_date && !truthyStr m.check_out_date then
    match parseDate (m.check_in_date.getD "") with
    | none => .error ()
    | some d => .ok { m with check_out_date := some (formatDate (addDays d 7)) }
  else .ok m

/-- Third if-block: destination known but no hotel preference → "3-star". -/
def fillHotelPref (m : Memory) : Memory :=
  if truthyStr m.destination && !truthyStr m.hotel_preference then
    { m with hotel_preference := some "3-star" }
  else m

/-- Fourth if-block: origin and destination known but no transportation →
`["flight"]`. -/
def fillTransportation (m : Memory) : Memory :=
  if truthyStr m.origin && truthyStr m.destination && m.transportation.isEmpty then
    { m with transportation := ["flight"] }
  else m

/-- The gap-filling pass `utils.make_reasonable_assumptions` (identical to
`TripMateAgent._make_reasonable_assumptions`), parameterised by today's
date: its four if-blocks in source order. `Except.error ()` models the
`strptime` `ValueError` the Python propagates on an unparseable stored
check-in date. -/
def make_reasonable_assumptions (today : Ymd) (m : Memory) : Except Unit Memory :=
  (fillCheckOut (fillCheckIn today m)).map (fun x => fillTransportation (fillHotelPref x))

/-! ### Airport-code resolution -/

/-- The static table `constants.AIRPORT_CODES`. -/
def AIRPORT_CODES : List (String × String) :=
  [("delhi", "DEL"), ("mumbai", "BOM"), ("chennai", "MAA"), ("kolkata", "CCU"),
   ("bengaluru", "BLR"), ("bangalore", "BLR"), ("hyderabad", "HYD"),
   ("bali", "DPS"), ("denpasar", "DPS"), ("bangkok", "BKK"),
   ("new york", "JFK"), ("london", "LHR"), ("paris", "CDG"), ("dubai", "DXB"),
   ("singapore", "SIN"), ("tokyo", "HND"), ("sydney", "SYD")]

/-- ASCII lowercasing of a string (`str.lower()` on the table's alphabet). -/
def strLower (s : String) : String :=
  ⟨s.data.map Char.toLower⟩

/-- The resolver `utils.get_airport_code`: falsy input (null or empty) gives
null, a known lowercased city gives its table code, any other city passes
through lowercased. -/
def get_airport_code (city : Option String) : Option String :=
  match city with
  | none => none
  | some s =>
    if s.data.isEmpty then none
    else
      let ls := strLower s
      match (AIRPORT_CODES.find? (fun kv => kv.1 == ls)).map (·.2) with
      | some code => some code
      | none => some ls

/-! ### Cache-key fingerprints -/

/-- Primitive parameter values of a search-parameter mapping (the parameter
dicts the agent builds hold strings, integers and `None`). -/
inductive PVal where
  | s : String → PVal
  | n : Int → PVal
  | null : PVal
deriving DecidableEq

/-- A parameter mapping, as an insertion-ordered association list with the
keys of a Python dict (unique within one mapping). -/
abbrev Params : Type := List (String × PVal)

/-- Key order used by `json.dumps(..., sort_keys=True)`. -/
def keyLE (p q : String × PVal) : Prop := p.1 ≤ q.1

instance : DecidableRel keyLE := fun p q =>
  inferInstanceAs (Decidable (p.1 ≤ q.1))

instance : IsTotal (String × PVal) keyLE :=
  ⟨fun p q => le_total p.1 q.1⟩

instance : IsTrans (String × PVal) keyLE :=
  ⟨fun _ _ _ h h' => le_trans h h'⟩

/-- The fingerprint `utils.generate_cache_key`, modelled by its md5 digest
input: the canonical, key-sorted serialisation of the parameter mapping
produced by `json.dumps(params, sort_keys=True)`. -/
def generate_cache_key (params : Params) : Params :=
  List.insertionSort keyLE params

/-! ### Result cache and the reuse path of `plan_trip` -/

/-- One cache bucket: the exact parameter set used for the search, and the
normalized results (`{"parameters": ..., "timestamp": ..., "results": ...}`;
the timestamp is never read by the source, so it is not modelled). -/
structure CacheEntry (α : Type) where
  parameters : Params
  results : List α

/-- A search cache (`self.cache["hotel_search"]` / `["flight_search"]`): a
dict keyed by the parameter fingerprint. -/
abbrev Cache (α : Type) : Type := List (Params × CacheEntry α)

/-- Dict lookup by fingerprint (`cache_key in self.cache[...]` followed by
indexing). -/
def lookupFingerprint {α : Type} (cache : Cache α) (k : Params) : Option (CacheEntry α) :=
  (cache.find? (fun e => e.1 = k)).map (·.2)

/-- Dict insertion `self.cache[...][cache_key] = entry`: replace the binding
if the key exists, append otherwise. -/
def cacheInsert {α : Type} (cache : Cache α) (k : Params) (e : CacheEntry α) : Cache α :=
  if (cache.find? (fun b => b.1 = k)).isSome then
    cache.map (fun b => if b.1 = k then (k, e) else b)
  else cache ++ [(k, e)]

/-- Value of a key in a parameter mapping. -/
def getParam (p : Params) (k : String) : Option PVal :=
  (p.find? (fun kv => kv.1 == k)).map (·.2)

/-- Modelled from the spec: `ResultCache.find_by_params` partial-match test —
"an entry matches if every key present in both parameter sets agrees". The
spec describes this operation but no `find_by_params` exists in the source. -/
def sharedKeysAgree (p q : Params) : Bool :=
  p.all (fun kv =>
    match getParam q kv.1 with
    | some v => v = kv.2
    | none => true)

/-- Modelled from the spec: `ResultCache.find_by_params(params) -> results|absent`
— a linear scan over existing entries returning the first whose stored
parameter set partially matches the query. Absent from the source; defined
from the spec's words for refinement comparison with the code's exact
fingerprint lookup. -/
def find_by_params {α : Type} (cache : Cache α) (params : Params) : Option (List α) :=
  (cache.find? (fun e => sharedKeysAgree e.2.parameters params)).map (·.2.results)

/-- The cache reuse path of `TripMateAgent.plan_trip` (hotel branch lines
439-460, flight branch lines 495-519): when no refresh trigger holds, look
the current parameters up by exact fingerprint; on a hit return the cached
results, on a miss perform a forced fresh provider call
(`search_hotels(..., force_refresh=True)`), whose results are `fresh`. -/
def reuseLookup {α : Type} (cache : Cache α) (params : Params) (fresh : List α) : List α :=
  match lookupFingerprint cache (generate_cache_key params) with
  | some e => e.results
  | none => fresh

/-- The refresh-or-reuse decision of `plan_trip` for one search type. -/
def shouldRefresh (forceRefresh datesChanged locationsChanged isFirst : Bool) : Bool :=
  forceRefresh || datesChanged || locationsChanged || isFirst

/-- One search type of a `plan_trip` turn, after the orchestrator decided the
search applies: fresh provider results when a refresh trigger holds, the
reuse path otherwise. -/
def turnSearch {α : Type} (cache : Cache α) (params : Params)
    (refresh : Bool) (fresh : List α) : List α :=
  if refresh then fresh else reuseLookup cache params fresh

/-- The parameter shape of every hotel search the agent issues
(`search_params` literal of `plan_trip` / `search_hotels`). -/
def hotelParamShape (p : Params) : Prop :=
  ∃ a b c d, p = [("location", a), ("check_in_date", b), ("check_out_date", c), ("adults", d)]

/-- The parameter shape of every flight search the agent issues. -/
def flightParamShape (p : Params) : Prop :=
  ∃ a b c d e, p = [("origin", a), ("destination", b), ("departure_date", c),
    ("return_date", d), ("adults", e)]

/-! ### Python container primitives used by the service adapters

Each models one Python operation on a duck-typed payload value, returning
`Except.error ()` exactly where the Python raises (`TypeError`,
`AttributeError`, `KeyError`, `IndexError`). -/

/-- Prefix test on character lists. -/
def charsPrefixOf : List Char → List Char → Bool
  | [], _ => true
  | _ :: _, [] => false
  | a :: as, b :: bs => a == b && charsPrefixOf as bs

/-- Infix test on character lists. -/
def charsInfixOf (sub : List Char) : List Char → Bool
  | [] => charsPrefixOf sub []
  | c :: rest => charsPrefixOf sub (c :: rest) || charsInfixOf sub rest

/-- Substring test (`sub in s` on strings). -/
def strContains (s sub : String) : Bool :=
  charsInfixOf sub.data s.data

/-- Membership test `k in v`: key test on dicts, element test on lists,
substring test on strings, `TypeError` otherwise. -/
def jHasKey (v : JVal) (k : String) : Except Unit Bool :=
  match v with
  | .obj l => .ok (l.any (fun kv => kv.1 == k))
  | .arr l => .ok (l.any (fun x => match x with | .str s => s == k | _ => false))
  | .str s => .ok (strContains s k)
  | _ => .error ()

/-- Indexing `v[k]` with a string key: dict lookup (`KeyError` when absent),
`TypeError` on every other payload shape. -/
def jIndex (v : JVal) (k : String) : Except Unit JVal :=
  match v with
  | .obj l => match getJ l k with
    | some x => .ok x
    | none => .error ()
  | _ => .error ()

/-- Attribute call `v.get(k)` with a default: defined on dicts only
(`AttributeError` otherwise). -/
def jGet (v : JVal) (k : String) (dflt : JVal) : Except Unit JVal :=
  match v with
  | .obj l => .ok ((getJ l k).getD dflt)
  | _ => .error ()

/-- Slice-then-iterate `v[:n]`: first `n` elements of a list, first `n`
characters of a string (as one-character strings), `TypeError` otherwise. -/
def jSlice (n : Nat) (v : JVal) : Except Unit (List JVal) :=
  match v with
  | .arr l => .ok (l.take n)
  | .str s => .ok ((s.data.take n).map (fun c => .str ⟨[c]⟩))
  | _ => .error ()

/-- Iteration `for x in v`: list elements, string characters, dict keys,
`TypeError` otherwise. -/
def iterElems (v : JVal) : Except Unit (List JVal) :=
  match v with
  | .arr l => .ok l
  | .str s => .ok (s.data.map (fun c => .str ⟨[c]⟩))
  | .obj l => .ok (l.map (fun kv => .str kv.1))
  | _ => .error ()

/-- Length `len(v)`: defined for lists, strings and dicts. -/
def jLen (v : JVal) : Except Unit Nat :=
  match v with
  | .arr l => .ok l.length
  | .str s => .ok s.data.length
  | .obj l => .ok l.length
  | _ => .error ()

/-- Indexing `v[0]`: `IndexError` on an empty sequence, `TypeError` on
non-sequences. -/
def jFirst (v : JVal) : Except Unit JVal :=
  match v with
  | .arr (x :: _) => .ok x
  | .arr [] => .error ()
  | .str ⟨c :: _⟩ => .ok (.str ⟨[c]⟩)
  | .str ⟨[]⟩ => .error ()
  | _ => .error ()

/-- Indexing `v[-1]`. -/
def jLast (v : JVal) : Except Unit JVal :=
  match v with
  | .arr (x :: xs) => .ok ((x :: xs).getLast (by simp))
  | .arr [] => .error ()
  | .str ⟨c :: cs⟩ => .ok (.str ⟨[(c :: cs).getLast (by simp)]⟩)
  | .str ⟨[]⟩ => .error ()
  | _ => .error ()

/-- Coercion used by integer arithmetic (`v // 60`): ints and bools are
int-like, everything else raises `TypeError`. -/
def toIntE (v : JVal) : Except Unit Int :=
  match v with
  | .num n => .ok n
  | .bool b => .ok (if b then 1 else 0)
  | _ => .error ()

/-- A single-quote character as a string, for Python repr rendering. -/
def pySquote : String := String.singleton (Char.ofNat 39)

/-- An opening-brace character as a string. -/
def pyLBrace : String := String.singleton (Char.ofNat 123)

/-- A closing-brace character as a string. -/
def pyRBrace : String := String.singleton (Char.ofNat 125)

mutual

/-- Python `str()` / f-string rendering of a payload value (strings are
rendered bare at the top level, quoted inside containers). -/
def pyReprAux : Bool → JVal → String
  | _, .null => "None"
  | _, .bool b => if b then "True" else "False"
  | _, .num n => toString n
  | q, .str s => if q then pySquote ++ s ++ pySquote else s
  | _, .arr l => "[" ++ String.intercalate ", " (pyReprList l) ++ "]"
  | _, .obj l => pyLBrace ++ String.intercalate ", " (pyReprObj l) ++ pyRBrace

/-- Rendered elements of a Python list. -/
def pyReprList : List JVal → List String
  | [] => []
  | x :: xs => pyReprAux true x :: pyReprList xs

/-- Rendered entries of a Python dict. -/
def pyReprObj : List (String × JVal) → List String
  | [] => []
  | kv :: rest => (pySquote ++ kv.1 ++ pySquote ++ ": " ++ pyReprAux true kv.2) :: pyReprObj rest

end

/-- Python f-string rendering `f"{v}"`. -/
def pyStr (v : JVal) : String := pyReprAux false v

/-! ### Hotel service (`hotel_service.HotelService.search_hotels`) -/

/-- A normalized hotel record: the `hotel_info` dict after the sentinel
filter, so fields may be absent. -/
abbrev HotelRec : Type := List (String × JVal)

/-- The sentinel filter of `search_hotels`:
`v not in [None, "Unknown", "", []]`. -/
def isDroppedSentinel : JVal → Bool
  | .null => true
  | .str s => s.data.isEmpty || s == "Unknown"
  | .arr l => l.isEmpty
  | _ => false

/-- The formatter `utils.format_hotel_rating`: falsy → "No rating", strings
pass through, numbers render with one decimal place over 5.0, values that
`float()` rejects → "Unknown rating". Total — its `try/except` catches the
conversion errors internally. -/
def format_hotel_rating (r : Option JVal) : String :=
  match r with
  | none => "No rating"
  | some v =>
    if !pyTruthy v then "No rating"
    else match v with
      | .str s => s
      | .num n => toString n ++ ".0/5.0"
      | .bool _ => "1.0/5.0"
      | _ => "Unknown rating"

/-- Comma grouping of `f"{n:,}"`, inserting a separator every three digits
from the right (digit positions counted by the second argument). -/
def insertCommasRev : Nat → List Char → List Char
  | _, [] => []
  | i, c :: rest =>
    if i ≠ 0 && i % 3 == 0 then ',' :: c :: insertCommasRev (i + 1) rest
    else c :: insertCommasRev (i + 1) rest

/-- Integer rendering with thousands separators (`f"{int(n):,}"`). -/
def commaFmt (n : Int) : String :=
  (if n < 0 then "-" else "")
    ++ ⟨(insertCommasRev 0 (toString n.natAbs).data.reverse).reverse⟩

/-- The formatter `utils.format_hotel_reviews`. -/
def format_hotel_reviews (r : Option JVal) : String :=
  match r with
  | none => "No reviews"
  | some v =>
    if !pyTruthy v then "No reviews"
    else match v with
      | .str s => s
      | .num n => commaFmt n ++ " reviews"
      | .bool _ => "1 reviews"
      | _ => "Unknown reviews"

/-- The helper `HotelService._extract_hotel_price`, as the pair
(optional `total_price`, optional `per_night`). -/
def extract_hotel_price (h : List (String × JVal)) : Option JVal × Option JVal :=
  ((getJ h "price"),
   match getJ h "price_description" with
   | some (.str d) => if strContains (strLower d) "per night" then some (.str d) else none
   | _ => none)

/-- The helper `HotelService._extract_hotel_description`: joins the `type`
and `highlight` payload fields with ", "; the join raises `TypeError` when a
collected part is not a string. -/
def extract_hotel_description (h : List (String × JVal)) : Except Unit (Option String) :=
  let parts := (match getJ h "type" with | some v => [v] | none => [])
    ++ (match getJ h "highlight" with | some v => [v] | none => [])
  match parts.mapM (fun v => match v with | JVal.str s => some s | _ => none) with
  | none => .error ()
  | some [] => .ok none
  | some ss => .ok (some (String.intercalate ", " ss))

/-- The `hotel_info` dict literal of `search_hotels`, before the sentinel
filter, from a dict payload element and the already-extracted description. -/
def rawHotelInfo (h : List (String × JVal)) (desc : Option String) : List (String × JVal) :=
  [("name", (getJ h "name").getD (.str "Unknown")),
   ("price", (extract_hotel_price h).1.getD ((getJ h "price").getD (.str "Unknown"))),
   ("price_per_night", (extract_hotel_price h).2.getD (.str "Unknown")),
   ("rating", .str (format_hotel_rating (getJ h "rating"))),
   ("reviews", .str (format_hotel_reviews (getJ h "reviews"))),
   ("stars", (getJ h "stars").getD (.str "Unknown")),
   ("location", (getJ h "address").getD (.str "Unknown")),
   ("thumbnail", (getJ h "thumbnail").getD .null),
   ("link", (getJ h "link").getD .null),
   ("description", match desc with | some s => .str s | none => .null),
   ("amenities", (getJ h "amenities").getD (.arr []))]

/-- Build one `hotel_info` record from one element of `properties`, then
apply the sentinel filter. `.get` on a non-dict element raises. -/
def buildHotelInfo (hotel : JVal) : Except Unit HotelRec :=
  match hotel with
  | .obj h => do
    let desc ← extract_hotel_description h
    .ok ((rawHotelInfo h desc).filter (fun kv => !isDroppedSentinel kv.2))
  | _ => .error ()

/-- The body of `HotelService.search_hotels` inside its `try`: cache check,
provider call (its outcome is the `response` argument: payload, or the
exception raised by the HTTP/JSON step), record building, cache write. -/
def hotelSearchBody (params : Params) (cache : Cache HotelRec) (forceRefresh : Bool)
    (response : Except Unit JVal) : Except Unit (List HotelRec × Cache HotelRec) :=
  match (if forceRefresh then none
          else lookupFingerprint cache (generate_cache_key params)) with
  | some e => .ok (e.results, cache)
  | none => do
    let data ← response
    let hasProps ← jHasKey data "properties"
    if hasProps then do
      let propsVal ← jIndex data "properties"
      let list5 ← jSlice 5 propsVal
      let hotels ← list5.mapM buildHotelInfo
      .ok (hotels, cacheInsert cache (generate_cache_key params) ⟨params, hotels⟩)
    else
      .ok ([], cache)

/-- `HotelService.search_hotels`: the whole body runs under
`try: ... except: return []`, so any raise yields an empty result list and
leaves the cache unchanged. -/
def search_hotels (params : Params) (cache : Cache HotelRec) (forceRefresh : Bool)
    (response : Except Unit JVal) : List HotelRec × Cache HotelRec :=
  match hotelSearchBody params cache forceRefresh response with
  | .ok r => r
  | .error _ => ([], cache)

/-! ### Flight service (`flight_service.FlightService.search_flights`) -/

/-- A normalized flight record (`flight_info`): every field is always
present, so a structure. -/
structure FlightRec where
  type : String
  price : JVal
  airline : JVal
  duration : String
  stops : String
  departure_time : JVal
  arrival_time : JVal
  layovers : JVal

/-- The formatter `utils.format_duration`: falsy → "Unknown", otherwise
integer division into hours and minutes (`TypeError` escapes on
non-numeric truthy input — the source has no local handler here). -/
def format_duration (v : Option JVal) : Except Unit String :=
  match v with
  | none => .ok "Unknown"
  | some x =>
    if !pyTruthy x then .ok "Unknown"
    else do
      let n ← toIntE x
      .ok (toString (Int.fdiv n 60) ++ "h " ++ toString (Int.fmod n 60) ++ "m")

/-- The helper `FlightService._extract_airline_name`. -/
def extract_airline_name (fd : JVal) : Except Unit JVal := do
  let has ← jHasKey fd "flights"
  if has then do
    let fl ← jIndex fd "flights"
    if pyTruthy fl then do
      let first ← jFirst fl
      match first with
      | .obj l => .ok ((getJ l "airline").getD (.str "Unknown"))
      | _ => .error ()
    else .ok (.str "Unknown")
  else .ok (.str "Unknown")

/-- The helper `FlightService._count_stops`. -/
def count_stops (fd : JVal) : Except Unit String := do
  let hasLay ← jHasKey fd "layovers"
  let layTruthy ← if hasLay then do
      let v ← jIndex fd "layovers"
      pure (pyTruthy v)
    else pure false
  if layTruthy then do
    let v ← jIndex fd "layovers"
    let n ← jLen v
    .ok (toString n ++ " stop" ++ (if 1 < n then "s" else ""))
  else do
    let hasFl ← jHasKey fd "flights"
    if hasFl then do
      let v ← jIndex fd "flights"
      let k ← jLen v
      if 1 < k then .ok (toString (k - 1) ++ " stop" ++ (if 1 < k then "s" else ""))
      else .ok "Direct"
    else .ok "Direct"

/-- The helper `FlightService._extract_departure_time`. -/
def extract_departure_time (fd : JVal) : Except Unit JVal := do
  let has ← jHasKey fd "flights"
  if has then do
    let fl ← jIndex fd "flights"
    if pyTruthy fl then do
      let first ← jFirst fl
      let dep ← match first with
        | .obj l => pure ((getJ l "departure_airport").getD (.obj []))
        | _ => .error ()
      if pyTruthy dep then do
        let hasTime ← jHasKey dep "time"
        if hasTime then jIndex dep "time"
        else .ok (.str "Unknown")
      else .ok (.str "Unknown")
    else .ok (.str "Unknown")
  else .ok (.str "Unknown")

/-- The helper `FlightService._extract_arrival_time`. -/
def extract_arrival_time (fd : JVal) : Except Unit JVal := do
  let has ← jHasKey fd "flights"
  if has then do
    let fl ← jIndex fd "flights"
    if pyTruthy fl then do
      let last ← jLast fl
      let arrAirport ← match last with
        | .obj l => pure ((getJ l "arrival_airport").getD (.obj []))
        | _ => .error ()
      if pyTruthy arrAirport then do
        let hasTime ← jHasKey arrAirport "time"
        if hasTime then jIndex arrAirport "time"
        else .ok (.str "Unknown")
      else .ok (.str "Unknown")
    else .ok (.str "Unknown")
  else .ok (.str "Unknown")

/-- The helper `FlightService._extract_layover_info`: a list of rendered
layover descriptions, or null when there are none. -/
def extract_layover_info (fd : JVal) : Except Unit JVal := do
  let hasLay ← jHasKey fd "layovers"
  let layTruthy ← if hasLay then do
      let v ← jIndex fd "layovers"
      pure (pyTruthy v)
    else pure false
  if layTruthy then do
    let v ← jIndex fd "layovers"
    let elems ← iterElems v
    let infos ← elems.mapM (fun lay => do
      let name ← match lay with
        | .obj l => pure ((getJ l "name").getD (.str "Unknown Airport"))
        | _ => .error ()
      let durv ← match lay with
        | .obj l => pure ((getJ l "duration").getD (.num 0))
        | _ => .error ()
      let dur ← toIntE durv
      .ok (JVal.str (pyStr name ++ " (" ++ toString (Int.fdiv dur 60) ++ "h "
        ++ toString (Int.fmod dur 60) ++ "m)")))
    if infos.isEmpty then .ok .null else .ok (.arr infos)
  else .ok .null

/-- Build one `flight_info` record with the given `type` tag from one
element of `best_flights` / `other_flights`; `.get` on a non-dict element
raises. -/
def buildFlightInfo (t : String) (fd : JVal) : Except Unit FlightRec :=
  match fd with
  | .obj l => do
    let price := (getJ l "price").getD .null
    let airline ← extract_airline_name (.obj l)
    let duration ← format_duration (getJ l "total_duration")
    let stops ← count_stops (.obj l)
    let dep ← extract_departure_time (.obj l)
    let arr ← extract_arrival_time (.obj l)
    let lay ← extract_layover_info (.obj l)
    .ok ⟨t, price, airline, duration, stops, dep, arr, lay⟩
  | _ => .error ()

/-- One `if "key" in data and data["key"]:` block of the flight service:
take at most `n` entries of that payload list and build records tagged
`t`; no key or a falsy value contributes nothing. -/
def flightBranch (data : JVal) (key : String) (n : Nat) (t : String) :
    Except Unit (List FlightRec) := do
  let has ← jHasKey data key
  if has then do
    let v ← jIndex data key
    if pyTruthy v then do
      let ln ← jSlice n v
      ln.mapM (buildFlightInfo t)
    else pure []
  else pure []

/-- The body of `FlightService.search_flights` inside its `try`: cache
check, provider call, up to three best and two alternative flights, cache
write only when at least one flight was found. -/
def flightSearchBody (params : Params) (cache : Cache FlightRec) (forceRefresh : Bool)
    (response : Except Unit JVal) : Except Unit (List FlightRec × Cache FlightRec) :=
  match (if forceRefresh then none
          else lookupFingerprint cache (generate_cache_key params)) with
  | some e => .ok (e.results, cache)
  | none => do
    let data ← response
    let best ← flightBranch data "best_flights" 3 "Best Flight"
    let other ← flightBranch data "other_flights" 2 "Alternative Flight"
    if (best ++ other).isEmpty then .ok ([], cache)
    else .ok (best ++ other,
      cacheInsert cache (generate_cache_key params) ⟨params, best ++ other⟩)

/-- `FlightService.search_flights`: the whole body runs under
`try: ... except: return []`. -/
def search_flights (params : Params) (cache : Cache FlightRec) (forceRefresh : Bool)
    (response : Except Unit JVal) : List FlightRec × Cache FlightRec :=
  match flightSearchBody params cache forceRefresh response with
  | .ok r => r
  | .error _ => ([], cache)

/-- The two provider searches of one `plan_trip` turn, issued one after the
other with independent inputs (hotel search first, flight search second). -/
def turnProviderSearches (hp fp : Params) (hc : Cache HotelRec) (fc : Cache FlightRec)
    (forceRefresh : Bool) (hresp fresp : Except Unit JVal) :
    (List HotelRec × Cache HotelRec) × (List FlightRec × Cache FlightRec) :=
  (search_hotels hp hc forceRefresh hresp, search_flights fp fc forceRefresh fresp)

/-- The normalized hotel-record field names (keys of `hotel_info`). -/
def hotelFieldNames : List String :=
  ["name", "price", "price_per_night", "rating", "reviews", "stars",
   "location", "thumbnail", "link", "description", "amenities"]

/-! ## Theorems -/

/-- Two key-sorted association lists that are permutations of each other and
have duplicate-free keys are equal. -/
theorem sortedKeys_eq_of_perm {l1 : Params} :
    ∀ {l2 : Params}, l1.Perm l2 → List.Sorted keyLE l1 → List.Sorted keyLE l2 →
      (l1.map Prod.fst).Nodup → l1 = l2 := by
  induction l1 with
  | nil =>
    intro l2 hp _ _ _
    exact hp.nil_eq
  | cons a t ih =>
    intro l2 hp hs1 hs2 hnd
    cases l2 with
    | nil => exact absurd hp.symm.nil_eq (by simp)
    | cons b t2 =>
      have hab : a ∈ b :: t2 := hp.subset (List.mem_cons_self a t)
      have hba : b ∈ a :: t := hp.symm.subset (List.mem_cons_self b t2)
      have hEq : a = b := by
        by_contra hne
        have ha2 : a ∈ t2 := by
          rcases List.mem_cons.mp hab with h | h
          · exact absurd h hne
          · exact h
        have hb1 : b ∈ t := by
          rcases List.mem_cons.mp hba with h | h
          · exact absurd h.symm hne
          · exact h
        have h1 : keyLE a b := List.rel_of_sorted_cons hs1 b hb1
        have h2 : keyLE b a := List.rel_of_sorted_cons hs2 a ha2
        have hk : a.1 = b.1 := le_antisymm h1 h2
        have hmem : a.1 ∈ t.map Prod.fst := by
          rw [hk]
          exact List.mem_map_of_mem Prod.fst hb1
        rw [List.map_cons, List.nodup_cons] at hnd
        exact hnd.1 hmem
      subst hEq
      rw [List.map_cons, List.nodup_cons] at hnd
      have htail := ih hp.cons_inv hs1.of_cons hs2.of_cons hnd.2
      rw [htail]

/-- The fingerprint's canonical form is sorted by key. -/
theorem generate_cache_key_sorted (p : Params) :
    List.Sorted keyLE (generate_cache_key p) :=
  List.sorted_insertionSort keyLE p

/-- The fingerprint's canonical form is a permutation of the input. -/
theorem generate_cache_key_perm (p : Params) :
    (generate_cache_key p).Perm p :=
  List.perm_insertionSort keyLE p

/-- C3, confirmed — cache-key fingerprint contract: two parameter mappings
with exactly the same key/value pairs (equality as a multiset of pairs,
with the first mapping's keys duplicate-free as in any Python dict) have
equal fingerprints regardless of insertion order, and two mappings
differing in at least one key/value pair have different fingerprints. -/
theorem claim_C3_fingerprint_contract :
    (∀ p1 p2 : Params, (p1.map Prod.fst).Nodup → p1.Perm p2 →
      generate_cache_key p1 = generate_cache_key p2)
    ∧ ∀ p1 p2 : Params, ¬ p1.Perm p2 →
      generate_cache_key p1 ≠ generate_cache_key p2 := by
  constructor
  · intro p1 p2 hnd hp
    refine sortedKeys_eq_of_perm ?_ (generate_cache_key_sorted p1)
      (generate_cache_key_sorted p2) ?_
    · exact (generate_cache_key_perm p1).trans
        (hp.trans (generate_cache_key_perm p2).symm)
    · exact (((generate_cache_key_perm p1).map Prod.fst).nodup_iff).mpr hnd
  · intro p1 p2 hnp heq
    exact hnp ((generate_cache_key_perm p1).symm.trans
      (heq ▸ generate_cache_key_perm p2))

/-- Witness for C3 at the spec's own example `{a:1, b:2}` vs `{b:2, a:1}`,
plus a differing pair. -/
theorem claim_C3_fingerprint_contract_witness :
    generate_cache_key [("b", PVal.n 2), ("a", PVal.n 1)]
      = generate_cache_key [("a", PVal.n 1), ("b", PVal.n 2)]
    ∧ generate_cache_key [("a", PVal.n 1)] ≠ generate_cache_key [("a", PVal.n 2)] :=
  ⟨claim_C3_fingerprint_contract.1 _ _ (by decide) (by decide),
   claim_C3_fingerprint_contract.2 _ _ (by decide)⟩

/-- C1, code bug — the generic merge loop of `_update_memory` replaces a
list-valued field with the patch list before the dedup-append handling
runs, so merging a patch whose `transit_cities` is `["Delhi"]` into a
memory holding `["Agra"]` drops `"Agra"`: the claimed monotone union
semantics fail on the code. -/
theorem claim_C1_merge_drops_prior_list_elements :
    (update_memory { initialMemory with transit_cities := ["Agra"] }
        { emptyPatch with transit_cities := some ["Delhi"] }).transit_cities = ["Delhi"]
    ∧ "Agra" ∉ (update_memory { initialMemory with transit_cities := ["Agra"] }
        { emptyPatch with transit_cities := some ["Delhi"] }).transit_cities := by
  decide

/-- C5, confirmed — merge non-regression: a patch field that is absent or
null (both modelled as `none`, both skipped identically by the source's
merge loop) leaves the corresponding memory field unchanged, for every
field of the memory. -/
theorem claim_C5_merge_non_regression (m : Memory) (p : Patch) :
    (p.origin = none → (update_memory m p).origin = m.origin)
    ∧ (p.destination = none → (update_memory m p).destination = m.destination)
    ∧ (p.transit_cities = none → (update_memory m p).transit_cities = m.transit_cities)
    ∧ (p.check_in_date = none → (update_memory m p).check_in_date = m.check_in_date)
    ∧ (p.check_out_date = none → (update_memory m p).check_out_date = m.check_out_date)
    ∧ (p.budget = none → (update_memory m p).budget = m.budget)
    ∧ (p.hotel_preference = none → (update_memory m p).hotel_preference = m.hotel_preference)
    ∧ (p.num_adults = none → (update_memory m p).num_adults = m.num_adults)
    ∧ (p.transportation = none → (update_memory m p).transportation = m.transportation) := by
  refine ⟨?_, ?_, ?_, ?_, ?_, ?_, ?_, ?_, ?_⟩ <;>
    intro h <;>
    simp [update_memory, mergeScalar, mergeAdults, mergeListGeneric, appendUnique, h]

/-- Witness for C5 at the empty patch and the initial memory. -/
theorem claim_C5_merge_non_regression_witness :
    (update_memory initialMemory emptyPatch).origin = initialMemory.origin
    ∧ (update_memory initialMemory emptyPatch).destination = initialMemory.destination
    ∧ (update_memory initialMemory emptyPatch).transit_cities = initialMemory.transit_cities
    ∧ (update_memory initialMemory emptyPatch).check_in_date = initialMemory.check_in_date
    ∧ (update_memory initialMemory emptyPatch).check_out_date = initialMemory.check_out_date
    ∧ (update_memory initialMemory emptyPatch).budget = initialMemory.budget
    ∧ (update_memory initialMemory emptyPatch).hotel_preference = initialMemory.hotel_preference
    ∧ (update_memory initialMemory emptyPatch).num_adults = initialMemory.num_adults
    ∧ (update_memory initialMemory emptyPatch).transportation = initialMemory.transportation := by
  obtain ⟨h1, h2, h3, h4, h5, h6, h7, h8, h9⟩ :=
    claim_C5_merge_non_regression initialMemory emptyPatch
  exact ⟨h1 rfl, h2 rfl, h3 rfl, h4 rfl, h5 rfl, h6 rfl, h7 rfl, h8 rfl, h9 rfl⟩

/-- Association-list lookup finds a present binding when keys are
duplicate-free. -/
theorem find?_eq_of_mem_nodupKeysStr {β : Type} {l : List (String × β)} {k : String} {v : β}
    (hnd : (l.map Prod.fst).Nodup) (hm : (k, v) ∈ l) :
    l.find? (fun kv => kv.1 == k) = some (k, v) := by
  induction l with
  | nil => cases hm
  | cons a t ih =>
    rcases List.mem_cons.mp hm with h | h
    · rw [← h]
      simp [List.find?]
    · rw [List.map_cons, List.nodup_cons] at hnd
      have hne : (a.1 == k) = false := by
        refine beq_eq_false_iff_ne.mpr ?_
        intro he
        exact hnd.1 (he ▸ List.mem_map_of_mem Prod.fst h)
      rw [List.find?_cons_of_neg _ (by simp [hne])]
      exact ih hnd.2 h

/-- Association-list lookup misses an absent key. -/
theorem find?_eq_none_of_forall_not_mem {β : Type} {l : List (String × β)} {k : String}
    (h : ∀ v, (k, v) ∉ l) : l.find? (fun kv => kv.1 == k) = none := by
  induction l with
  | nil => rfl
  | cons a t ih =>
    have hne : (a.1 == k) = false := by
      refine beq_eq_false_iff_ne.mpr ?_
      intro he
      exact h a.2 (by rw [← he]; exact List.mem_cons_self a t)
    rw [List.find?_cons_of_neg _ (by simp [hne])]
    exact ih (fun v hv => h v (List.mem_cons_of_mem a hv))

/-- C9 counterexample — the claim says every non-null city string absent
from the table passes through lowercased, but the empty string (non-null,
not a table key) resolves to null: `get_airport_code("")` is `None` in the
source (`if not city`), not `""`. -/
theorem claim_C9_counterexample :
    get_airport_code (some "") = none
    ∧ get_airport_code (some "") ≠ some (strLower "") := by
  decide

/-- C9, corrected — airport-code resolution with the truthiness boundary
made explicit: null or empty input resolves to null; a city whose
lowercasing is a key of the static table resolves to that table's code; any
other non-empty city passes through lowercased. The resolver is a total
pure function. -/
theorem claim_C9_airport_code_resolution (c : Option String) :
    (c = none → get_airport_code c = none)
    ∧ (c = some "" → get_airport_code c = none)
    ∧ (∀ s code, c = some s → (strLower s, code) ∈ AIRPORT_CODES →
        get_airport_code c = some code)
    ∧ (∀ s, c = some s → s ≠ "" → strLower s ∉ AIRPORT_CODES.map Prod.fst →
        get_airport_code c = some (strLower s)) := by
  refine ⟨?_, ?_, ?_, ?_⟩
  · intro h; subst h; rfl
  · intro h; subst h; rfl
  · intro s code hc hm
    subst hc
    have hnd : (AIRPORT_CODES.map Prod.fst).Nodup := by decide
    have hfind := find?_eq_of_mem_nodupKeysStr hnd hm
    have hkeys : ∀ k ∈ AIRPORT_CODES.map Prod.fst, ¬ k.data.isEmpty := by decide
    have hne : s.data.isEmpty = false := by
      rw [Bool.eq_false_iff]
      intro hemp
      refine hkeys (strLower s) (List.mem_map_of_mem Prod.fst hm) ?_
      have hdat : s.data = [] := by simpa using hemp
      simp [strLower, hdat]
    simp [get_airport_code, hne, getJ, hfind]
  · intro s hc hne hnot
    subst hc
    have hfind := find?_eq_none_of_forall_not_mem
      (fun v hv => hnot (List.mem_map_of_mem Prod.fst hv))
    have hne' : s.data.isEmpty = false := by
      rw [Bool.eq_false_iff]
      intro hemp
      have hdat : s.data = [] := by simpa using hemp
      exact hne (by cases s; simp_all)
    simp only [get_airport_code, hne', Bool.false_eq_true, if_false]
    rw [show List.find? (fun kv => kv.1 == strLower s) AIRPORT_CODES = none from hfind]
    rfl

/-- Witness for C9: a known city ("Delhi", case-insensitively), an unknown
city ("Pune"), the null input and the empty string. -/
theorem claim_C9_airport_code_resolution_witness :
    get_airport_code none = none
    ∧ get_airport_code (some "") = none
    ∧ get_airport_code (some "Delhi") = some "DEL"
    ∧ get_airport_code (some "Pune") = some "pune" := by
  obtain ⟨h1, h2, h3, h4⟩ := claim_C9_airport_code_resolution none
  obtain ⟨_, g2, _, _⟩ := claim_C9_airport_code_resolution (some "")
  obtain ⟨_, _, k3, _⟩ := claim_C9_airport_code_resolution (some "Delhi")
  obtain ⟨_, _, _, u4⟩ := claim_C9_airport_code_resolution (some "Pune")
  refine ⟨h1 rfl, g2 rfl, ?_, ?_⟩
  · exact k3 "Delhi" "DEL" rfl (by decide)
  · have := u4 "Pune" rfl (by decide) (by decide)
    simpa using this

theorem formatDate_truthy (x : Ymd) : truthyStr (some (formatDate x)) = true := by
  simp [truthyStr, formatDate, List.isEmpty_iff]

theorem fillCheckIn_spec (today : Ymd) (m : Memory) :
    (fillCheckIn today m).origin = m.origin
    ∧ (fillCheckIn today m).destination = m.destination
    ∧ (fillCheckIn today m).check_out_date = m.check_out_date
    ∧ (fillCheckIn today m).hotel_preference = m.hotel_preference
    ∧ (fillCheckIn today m).transportation = m.transportation
    ∧ (fillCheckIn today m).transit_cities = m.transit_cities
    ∧ (fillCheckIn today m).budget = m.budget
    ∧ (fillCheckIn today m).num_adults = m.num_adults
    ∧ (truthyStr m.destination = true → truthyStr (fillCheckIn today m).check_in_date = true)
    ∧ (truthyStr m.check_in_date = true → (fillCheckIn today m).check_in_date = m.check_in_date)
    ∧ (m.check_in_date = none → truthyStr m.destination = true →
        (fillCheckIn today m).check_in_date = some (formatDate (addDays today 14)))
    ∧ (truthyStr m.destination = false → (fillCheckIn today m).check_in_date = m.check_in_date) := by
  unfold fillCheckIn
  by_cases h : (truthyStr m.destination && !truthyStr m.check_in_date) = true
  · rw [if_pos h]
    rw [Bool.and_eq_true, Bool.not_eq_true'] at h
    refine ⟨rfl, rfl, rfl, rfl, rfl, rfl, rfl, rfl, ?_, ?_, ?_, ?_⟩
    · intro _; exact formatDate_truthy _
    · intro hci; rw [h.2] at hci; cases hci
    · intro _ _; rfl
    · intro hd; rw [h.1] at hd; cases hd
  · rw [if_neg h]
    rw [Bool.and_eq_true, Bool.not_eq_true'] at h
    push_neg at h
    refine ⟨rfl, rfl, rfl, rfl, rfl, rfl, rfl, rfl, ?_, ?_, ?_, ?_⟩
    · intro hd
      have := h hd
      simp only [Bool.not_eq_false] at this
      exact this
    · intro _; rfl
    · intro hnone hd
      have := h hd
      rw [hnone] at this
      simp [truthyStr] at this
    · intro _; rfl

theorem fillCheckOut_spec (m : Memory) :
    ∀ x, fillCheckOut m = .ok x →
    x.origin = m.origin
    ∧ x.destination = m.destination
    ∧ x.check_in_date = m.check_in_date
    ∧ x.hotel_preference = m.hotel_preference
    ∧ x.transportation = m.transportation
    ∧ x.transit_cities = m.transit_cities
    ∧ x.budget = m.budget
    ∧ x.num_adults = m.num_adults
    ∧ (truthyStr m.check_in_date = true → truthyStr x.check_out_date = true)
    ∧ (truthyStr m.check_out_date = true → x.check_out_date = m.check_out_date)
    ∧ (∀ s d, m.check_in_date = some s → parseDate s = some d → m.check_out_date = none →
        x.check_out_date = some (formatDate (addDays d 7))) := by
  intro x hx
  unfold fillCheckOut at hx
  by_cases h : (truthyStr m.check_in_date && !truthyStr m.check_out_date) = true
  · rw [if_pos h] at hx
    rw [Bool.and_eq_true, Bool.not_eq_true'] at h
    cases hp : parseDate (m.check_in_date.getD "") with
    | none => rw [hp] at hx; cases hx
    | some d0 =>
      rw [hp] at hx
      have hxe : { m with check_out_date := some (formatDate (addDays d0 7)) } = x :=
        Except.ok.inj hx
      subst hxe
      refine ⟨rfl, rfl, rfl, rfl, rfl, rfl, rfl, rfl, ?_, ?_, ?_⟩
      · intro _; exact formatDate_truthy _
      · intro hco; rw [h.2] at hco; cases hco
      · intro s d hs hpd _
        rw [hs] at hp
        simp only [Option.getD_some] at hp
        rw [hp] at hpd
        simp only [Option.some.injEq] at hpd
        rw [hpd]
  · rw [if_neg h] at hx
    have hxe : m = x := Except.ok.inj hx
    subst hxe
    rw [Bool.and_eq_true, Bool.not_eq_true'] at h
    push_neg at h
    refine ⟨rfl, rfl, rfl, rfl, rfl, rfl, rfl, rfl, ?_, ?_, ?_⟩
    · intro hci
      have := h hci
      simp only [Bool.not_eq_false] at this
      exact this
    · intro _; rfl
    · intro s d hs hpd hco
      exfalso
      have hstruthy : truthyStr m.check_in_date = true := by
        rw [hs]
        cases hse : s.data.isEmpty with
        | false => simp [truthyStr, hse]
        | true =>
          exfalso
          have : s = "" := by
            cases s with
            | mk data => simp only [List.isEmpty_iff] at hse; simp [hse]
          rw [this] at hpd
          cases hpd.symm.trans (show parseDate "" = none from rfl)
      have := h hstruthy
      rw [hco] at this
      simp [truthyStr] at this

theorem fillHotelPref_spec (m : Memory) :
    (fillHotelPref m).origin = m.origin
    ∧ (fillHotelPref m).destination = m.destination
    ∧ (fillHotelPref m).check_in_date = m.check_in_date
    ∧ (fillHotelPref m).check_out_date = m.check_out_date
    ∧ (fillHotelPref m).transportation = m.transportation
    ∧ (fillHotelPref m).transit_cities = m.transit_cities
    ∧ (fillHotelPref m).budget = m.budget
    ∧ (fillHotelPref m).num_adults = m.num_adults
    ∧ (truthyStr m.destination = true → truthyStr (fillHotelPref m).hotel_preference = true)
    ∧ (truthyStr m.hotel_preference = true → (fillHotelPref m).hotel_preference = m.hotel_preference)
    ∧ (m.hotel_preference = none → truthyStr m.destination = true →
        (fillHotelPref m).hotel_preference = some "3-star") := by
  unfold fillHotelPref
  by_cases h : (truthyStr m.destination && !truthyStr m.hotel_preference) = true
  · rw [if_pos h]
    rw [Bool.and_eq_true, Bool.not_eq_true'] at h
    refine ⟨rfl, rfl, rfl, rfl, rfl, rfl, rfl, rfl, ?_, ?_, ?_⟩
    · intro _; rfl
    · intro hp; rw [h.2] at hp; cases hp
    · intro _ _; rfl
  · rw [if_neg h]
    rw [Bool.and_eq_true, Bool.not_eq_true'] at h
    push_neg at h
    refine ⟨rfl, rfl, rfl, rfl, rfl, rfl, rfl, rfl, ?_, ?_, ?_⟩
    · intro hd
      have := h hd
      simp only [Bool.not_eq_false] at this
      exact this
    · intro _; rfl
    · intro hnone hd
      have := h hd
      rw [hnone] at this
      simp [truthyStr] at this

theorem fillTransportation_spec (m : Memory) :
    (fillTransportation m).origin = m.origin
    ∧ (fillTransportation m).destination = m.destination
    ∧ (fillTransportation m).check_in_date = m.check_in_date
    ∧ (fillTransportation m).check_out_date = m.check_out_date
    ∧ (fillTransportation m).hotel_preference = m.hotel_preference
    ∧ (fillTransportation m).transit_cities = m.transit_cities
    ∧ (fillTransportation m).budget = m.budget
    ∧ (fillTransportation m).num_adults = m.num_adults
    ∧ ((truthyStr m.origin && truthyStr m.destination) = true →
        (fillTransportation m).transportation ≠ [])
    ∧ (m.transportation ≠ [] → (fillTransportation m).transportation = m.transportation)
    ∧ (m.transportation = [] → truthyStr m.origin = true → truthyStr m.destination = true →
        (fillTransportation m).transportation = ["flight"]) := by
  unfold fillTransportation
  by_cases h : (truthyStr m.origin && truthyStr m.destination && m.transportation.isEmpty) = true
  · rw [if_pos h]
    simp only [Bool.and_eq_true] at h
    refine ⟨rfl, rfl, rfl, rfl, rfl, rfl, rfl, rfl, ?_, ?_, ?_⟩
    · intro _; simp
    · intro hne
      exfalso
      exact hne (List.isEmpty_iff.mp h.2)
    · intro _ _ _; rfl
  · rw [if_neg h]
    simp only [Bool.and_eq_true, not_and] at h
    refine ⟨rfl, rfl, rfl, rfl, rfl, rfl, rfl, rfl, ?_, ?_, ?_⟩
    · intro hod
      simp only [Bool.and_eq_true] at hod
      intro hemp
      exact h ⟨hod.1, hod.2⟩ (by simp [hemp])
    · intro _; rfl
    · intro hemp ho hd
      exfalso
      exact h ⟨ho, hd⟩ (by simp [hemp])

theorem mra_destruct (today : Ymd) (m m' : Memory)
    (h : make_reasonable_assumptions today m = .ok m') :
    ∃ x, fillCheckOut (fillCheckIn today m) = .ok x
      ∧ m' = fillTransportation (fillHotelPref x) := by
  unfold make_reasonable_assumptions at h
  cases hco : fillCheckOut (fillCheckIn today m) with
  | error e => rw [hco] at h; cases h
  | ok x =>
    rw [hco] at h
    simp only [Except.map] at h
    exact ⟨x, rfl, (Except.ok.inj h).symm⟩

theorem mra_saturated (today : Ymd) (m m' : Memory)
    (h : make_reasonable_assumptions today m = .ok m') :
    (truthyStr m'.destination = true → truthyStr m'.check_in_date = true)
    ∧ (truthyStr m'.check_in_date = true → truthyStr m'.check_out_date = true)
    ∧ (truthyStr m'.destination = true → truthyStr m'.hotel_preference = true)
    ∧ ((truthyStr m'.origin && truthyStr m'.destination) = true → m'.transportation ≠ []) := by
  obtain ⟨x, hco, hm'⟩ := mra_destruct today m m' h
  obtain ⟨ci1, ci2, ci3, ci4, ci5, ci6, ci7, ci8, ci9, ci10, ci11, ci12⟩ :=
    fillCheckIn_spec today m
  obtain ⟨co1, co2, co3, co4, co5, co6, co7, co8, co9, co10, co11⟩ :=
    fillCheckOut_spec (fillCheckIn today m) x hco
  obtain ⟨hp1, hp2, hp3, hp4, hp5, hp6, hp7, hp8, hp9, hp10, hp11⟩ :=
    fillHotelPref_spec x
  obtain ⟨ft1, ft2, ft3, ft4, ft5, ft6, ft7, ft8, ft9, ft10, ft11⟩ :=
    fillTransportation_spec (fillHotelPref x)
  have hdest : m'.destination = m.destination := by
    rw [hm', ft2, hp2, co2, ci2]
  have hdx : x.destination = m.destination := by
    rw [co2, ci2]
  have hox : x.origin = m.origin := by
    rw [co1, ci1]
  have horig : m'.origin = m.origin := by
    rw [hm', ft1, hp1, co1, ci1]
  have hci : m'.check_in_date = x.check_in_date := by
    rw [hm', ft3, hp3]
  have hcout : m'.check_out_date = x.check_out_date := by
    rw [hm', ft4, hp4]
  refine ⟨?_, ?_, ?_, ?_⟩
  · intro hd
    rw [hci, co3]
    exact ci9 (by rw [← hdest]; exact hd)
  · intro hcit
    rw [hcout]
    exact co9 (by rw [← co3, ← hci]; exact hcit)
  · intro hd
    have : m'.hotel_preference = (fillHotelPref x).hotel_preference := by
      rw [hm', ft5]
    rw [this]
    exact hp9 (by rw [hdx, ← hdest]; exact hd)
  · intro hod
    have : m'.transportation = (fillTransportation (fillHotelPref x)).transportation := by
      rw [hm']
    rw [this]
    refine ft9 ?_
    rw [hp1, hp2, hox, hdx, ← horig, ← hdest]
    exact hod

theorem mra_idem (today : Ymd) (m m' : Memory)
    (h : make_reasonable_assumptions today m = .ok m') :
    make_reasonable_assumptions today m' = .ok m' := by
  obtain ⟨hA, hB, hC, hD⟩ := mra_saturated today m m' h
  have h1 : fillCheckIn today m' = m' := by
    unfold fillCheckIn
    rw [if_neg]
    intro hc
    rw [Bool.and_eq_true, Bool.not_eq_true'] at hc
    rw [hA hc.1] at hc
    cases hc.2
  have h2 : fillCheckOut m' = .ok m' := by
    unfold fillCheckOut
    rw [if_neg]
    intro hc
    rw [Bool.and_eq_true, Bool.not_eq_true'] at hc
    rw [hB hc.1] at hc
    cases hc.2
  have h3 : fillHotelPref m' = m' := by
    unfold fillHotelPref
    rw [if_neg]
    intro hc
    rw [Bool.and_eq_true, Bool.not_eq_true'] at hc
    rw [hC hc.1] at hc
    cases hc.2
  have h4 : fillTransportation m' = m' := by
    unfold fillTransportation
    rw [if_neg]
    intro hc
    rw [Bool.and_eq_true, Bool.and_eq_true] at hc
    refine hD ?_ (List.isEmpty_iff.mp hc.2)
    rw [Bool.and_eq_true]
    exact hc.1
  unfold make_reasonable_assumptions
  rw [h1, h2]
  simp only [Except.map, h3, h4]

/-- C4 counterexample — the claim says gap-filling never overwrites an
existing non-null value, but a memory holding the non-null empty string as
`hotel_preference` (with a truthy destination) has it overwritten with
"3-star": the source guards with Python truthiness (`not memory[...]`),
not a null test. -/
theorem claim_C4_counterexample :
    ({ initialMemory with
        destination := some "Bali", hotel_preference := some "" } : Memory).hotel_preference ≠ none
    ∧ make_reasonable_assumptions ⟨2025, 1, 1⟩
        { initialMemory with destination := some "Bali", hotel_preference := some "" }
      = .ok { initialMemory with
          destination := some "Bali", check_in_date := some "2025-01-15",
          check_out_date := some "2025-01-22", hotel_preference := some "3-star" }
    ∧ (some "3-star" : Option String) ≠ some "" := by
  exact ⟨by decide, rfl, by decide⟩

/-- C4, corrected — gap-filling is idempotent (running it twice equals
running it once, also through the error case), and it is fill-only with
respect to Python truthiness: it never overwrites a truthy (non-null,
non-empty) `check_in_date`, `check_out_date` or `hotel_preference`, nor a
non-empty `transportation` list. (As stated the claim fails only in that a
non-null but empty string counts as missing and may be overwritten.) -/
theorem claim_C4_gap_fill_idempotent_and_fill_only (today : Ymd) (m : Memory) :
    (make_reasonable_assumptions today m).bind (make_reasonable_assumptions today)
      = make_reasonable_assumptions today m
    ∧ ∀ m', make_reasonable_assumptions today m = .ok m' →
        (truthyStr m.check_in_date = true → m'.check_in_date = m.check_in_date)
        ∧ (truthyStr m.check_out_date = true → m'.check_out_date = m.check_out_date)
        ∧ (truthyStr m.hotel_preference = true → m'.hotel_preference = m.hotel_preference)
        ∧ (m.transportation ≠ [] → m'.transportation = m.transportation) := by
  constructor
  · cases hr : make_reasonable_assumptions today m with
    | error e => rfl
    | ok m' =>
      show make_reasonable_assumptions today m' = .ok m'
      exact mra_idem today m m' hr
  · intro m' hr
    obtain ⟨x, hco, hm'⟩ := mra_destruct today m m' hr
    obtain ⟨ci1, ci2, ci3, ci4, ci5, ci6, ci7, ci8, ci9, ci10, ci11, ci12⟩ :=
      fillCheckIn_spec today m
    obtain ⟨co1, co2, co3, co4, co5, co6, co7, co8, co9, co10, co11⟩ :=
      fillCheckOut_spec (fillCheckIn today m) x hco
    obtain ⟨hp1, hp2, hp3, hp4, hp5, hp6, hp7, hp8, hp9, hp10, hp11⟩ :=
      fillHotelPref_spec x
    obtain ⟨ft1, ft2, ft3, ft4, ft5, ft6, ft7, ft8, ft9, ft10, ft11⟩ :=
      fillTransportation_spec (fillHotelPref x)
    refine ⟨?_, ?_, ?_, ?_⟩
    · intro hcit
      rw [hm', ft3, hp3, co3]
      exact ci10 hcit
    · intro hcot
      rw [hm', ft4, hp4]
      rw [co10 (by rw [ci3]; exact hcot), ci3]
    · intro hpt
      rw [hm', ft5]
      rw [hp10 (by rw [co4, ci4]; exact hpt), co4, ci4]
    · intro hne
      rw [hm']
      rw [ft10 (by rw [hp5, co5, ci5]; exact hne), hp5, co5, ci5]

/-- Witness for C4 at a memory with truthy check-in, hotel preference and
transportation but a null check-out (which gap-filling fills). -/
theorem claim_C4_gap_fill_idempotent_and_fill_only_witness :
    (make_reasonable_assumptions ⟨2025, 1, 1⟩
        ⟨some "Delhi", some "Bali", [], some "2025-06-01", none,
          none, some "hostel", 1, ["train"]⟩).bind
      (make_reasonable_assumptions ⟨2025, 1, 1⟩)
      = make_reasonable_assumptions ⟨2025, 1, 1⟩
        ⟨some "Delhi", some "Bali", [], some "2025-06-01", none,
          none, some "hostel", 1, ["train"]⟩
    ∧ (⟨some "Delhi", some "Bali", [], some "2025-06-01", some "2025-06-08",
          none, some "hostel", 1, ["train"]⟩ : Memory).check_in_date
        = (⟨some "Delhi", some "Bali", [], some "2025-06-01", none,
          none, some "hostel", 1, ["train"]⟩ : Memory).check_in_date
    ∧ (⟨some "Delhi", some "Bali", [], some "2025-06-01", some "2025-06-08",
          none, some "hostel", 1, ["train"]⟩ : Memory).hotel_preference
        = (⟨some "Delhi", some "Bali", [], some "2025-06-01", none,
          none, some "hostel", 1, ["train"]⟩ : Memory).hotel_preference
    ∧ (⟨some "Delhi", some "Bali", [], some "2025-06-01", some "2025-06-08",
          none, some "hostel", 1, ["train"]⟩ : Memory).transportation
        = (⟨some "Delhi", some "Bali", [], some "2025-06-01", none,
          none, some "hostel", 1, ["train"]⟩ : Memory).transportation := by
  obtain ⟨hidem, hfill⟩ := claim_C4_gap_fill_idempotent_and_fill_only ⟨2025, 1, 1⟩
    ⟨some "Delhi", some "Bali", [], some "2025-06-01", none,
      none, some "hostel", 1, ["train"]⟩
  obtain ⟨f1, f2, f3, f4⟩ := hfill
    ⟨some "Delhi", some "Bali", [], some "2025-06-01", some "2025-06-08",
      none, some "hostel", 1, ["train"]⟩ rfl
  exact ⟨hidem, f1 (by decide), f3 (by decide), f4 (by decide)⟩

/-- C6 counterexample — the claim's precondition "non-null destination" is
not enough: with the non-null empty string as destination and a null
check-in date, gap-filling leaves the check-in date null instead of setting
it to today + 14 days (the source tests Python truthiness). -/
theorem claim_C6_counterexample :
    ({ initialMemory with destination := some "" } : Memory).destination ≠ none
    ∧ ({ initialMemory with destination := some "" } : Memory).check_in_date = none
    ∧ make_reasonable_assumptions ⟨2025, 1, 1⟩ { initialMemory with destination := some "" }
      = .ok { initialMemory with destination := some "" }
    ∧ (none : Option String) ≠ some (formatDate (addDays ⟨2025, 1, 1⟩ 14)) := by
  exact ⟨by decide, rfl, rfl, by decide⟩

/-- C6, corrected — gap-filling postcondition, with "non-null" strengthened
to truthy (non-null and non-empty), which is what the source tests: with a
truthy destination, a null check-in becomes today + 14 days; a null
check-out becomes the (possibly just-filled) check-in plus 7 days, via the
code's own parse-then-format round trip; a null hotel preference becomes
"3-star"; with a truthy origin as well, an empty transportation list
becomes `["flight"]`. -/
theorem claim_C6_gap_fill_postcondition (today : Ymd) (m : Memory)
    (hdest : truthyStr m.destination = true) :
    ∀ m', make_reasonable_assumptions today m = .ok m' →
      (m.check_in_date = none → m'.check_in_date = some (formatDate (addDays today 14)))
      ∧ (∀ s d, m.check_in_date = some s → parseDate s = some d → m.check_out_date = none →
          m'.check_out_date = some (formatDate (addDays d 7)))
      ∧ (∀ d, m.check_in_date = none → m.check_out_date = none →
          parseDate (formatDate (addDays today 14)) = some d →
          m'.check_out_date = some (formatDate (addDays d 7)))
      ∧ (m.hotel_preference = none → m'.hotel_preference = some "3-star")
      ∧ (truthyStr m.origin = true → m.transportation = [] →
          m'.transportation = ["flight"]) := by
  intro m' hr
  obtain ⟨x, hco, hm'⟩ := mra_destruct today m m' hr
  obtain ⟨ci1, ci2, ci3, ci4, ci5, ci6, ci7, ci8, ci9, ci10, ci11, ci12⟩ :=
    fillCheckIn_spec today m
  obtain ⟨co1, co2, co3, co4, co5, co6, co7, co8, co9, co10, co11⟩ :=
    fillCheckOut_spec (fillCheckIn today m) x hco
  obtain ⟨hp1, hp2, hp3, hp4, hp5, hp6, hp7, hp8, hp9, hp10, hp11⟩ :=
    fillHotelPref_spec x
  obtain ⟨ft1, ft2, ft3, ft4, ft5, ft6, ft7, ft8, ft9, ft10, ft11⟩ :=
    fillTransportation_spec (fillHotelPref x)
  refine ⟨?_, ?_, ?_, ?_, ?_⟩
  · intro hnone
    rw [hm', ft3, hp3, co3]
    exact ci11 hnone hdest
  · intro s d hs hpd hco0
    have hst : truthyStr m.check_in_date = true := by
      rw [hs]
      by_contra hne
      have hsempty : s.data = [] := by
        simp only [truthyStr, Bool.not_eq_true] at hne
        simpa using hne
      have : s = "" := by cases s; simp_all
      rw [this] at hpd
      cases hpd.symm.trans (show parseDate "" = none from rfl)
    rw [hm', ft4, hp4]
    exact co11 s d (by rw [ci10 hst]; exact hs) hpd (by rw [ci3]; exact hco0)
  · intro d hnone hco0 hpd
    rw [hm', ft4, hp4]
    exact co11 (formatDate (addDays today 14)) d (ci11 hnone hdest) hpd
      (by rw [ci3]; exact hco0)
  · intro hnone
    rw [hm', ft5]
    exact hp11 (by rw [co4, ci4]; exact hnone) (by rw [co2, ci2]; exact hdest)
  · intro horg hemp
    rw [hm']
    refine ft11 (by rw [hp5, co5, ci5]; exact hemp) ?_ ?_
    · rw [hp1, co1, ci1]; exact horg
    · rw [hp2, co2, ci2]; exact hdest

/-- Witness for C6 at the spec's end-to-end scenario "Delhi to Bali on
2025-06-01" (one memory with the check-in given, one where it is inferred
from today = 2025-05-18). -/
theorem claim_C6_gap_fill_postcondition_witness :
    (⟨some "Delhi", some "Bali", [], some "2025-06-01", some "2025-06-08",
        none, some "3-star", 1, ["flight"]⟩ : Memory).check_in_date
      = some (formatDate (addDays ⟨2025, 5, 18⟩ 14))
    ∧ (⟨some "Delhi", some "Bali", [], some "2025-06-01", some "2025-06-08",
        none, some "3-star", 1, ["flight"]⟩ : Memory).check_out_date = some "2025-06-08"
    ∧ (⟨some "Delhi", some "Bali", [], some "2025-06-01", some "2025-06-08",
        none, some "3-star", 1, ["flight"]⟩ : Memory).hotel_preference = some "3-star"
    ∧ (⟨some "Delhi", some "Bali", [], some "2025-06-01", some "2025-06-08",
        none, some "3-star", 1, ["flight"]⟩ : Memory).transportation = ["flight"]
    ∧ (⟨some "Delhi", some "Bali", [], some "2025-06-01", some "2025-06-08",
        none, some "hostel", 1, ["flight"]⟩ : Memory).check_out_date = some "2025-06-08" := by
  obtain ⟨g1, g2, g3, g4, g5⟩ := claim_C6_gap_fill_postcondition ⟨2025, 5, 18⟩
    ⟨some "Delhi", some "Bali", [], none, none, none, none, 1, []⟩ (by decide)
    ⟨some "Delhi", some "Bali", [], some "2025-06-01", some "2025-06-08",
      none, some "3-star", 1, ["flight"]⟩ rfl
  obtain ⟨-, k2, -, -, -⟩ := claim_C6_gap_fill_postcondition ⟨2025, 5, 18⟩
    ⟨some "Delhi", some "Bali", [], some "2025-06-01", none, none, some "hostel", 1, ["flight"]⟩
    (by decide)
    ⟨some "Delhi", some "Bali", [], some "2025-06-01", some "2025-06-08",
      none, some "hostel", 1, ["flight"]⟩ rfl
  refine ⟨g1 rfl, ?_, g4 rfl, g5 (by decide) rfl, ?_⟩
  · exact (g3 ⟨2025, 6, 1⟩ rfl rfl (by decide)).trans (by decide)
  · exact (k2 "2025-06-01" ⟨2025, 6, 1⟩ rfl (by decide) rfl).trans (by decide)

/-- Two `find?` scans with predicates that agree on every element find the
same result. -/
theorem find?_congr_mem {β : Type} {l : List β} {f g : β → Bool}
    (h : ∀ x ∈ l, f x = g x) : l.find? f = l.find? g := by
  induction l with
  | nil => rfl
  | cons a t ih =>
    have ha := h a (List.mem_cons_self a t)
    cases hf : f a with
    | true =>
      rw [List.find?_cons_of_pos _ hf, List.find?_cons_of_pos _ (ha ▸ hf)]
    | false =>
      rw [List.find?_cons_of_neg _ (by simp [hf]), List.find?_cons_of_neg _ (by simp [← ha, hf])]
      exact ih (fun x hx => h x (List.mem_cons_of_mem a hx))

/-- Two `all` scans with predicates that agree on every element agree. -/
theorem all_congr_mem {β : Type} {l : List β} {f g : β → Bool}
    (h : ∀ x ∈ l, f x = g x) : l.all f = l.all g := by
  induction l with
  | nil => rfl
  | cons a t ih =>
    simp only [List.all_cons]
    rw [h a (List.mem_cons_self a t), ih (fun x hx => h x (List.mem_cons_of_mem a hx))]

/-- `getParam` on a cons whose head has the sought key. -/
theorem getParam_cons_self (k : String) (v : PVal) (q : Params) :
    getParam ((k, v) :: q) k = some v := by
  simp [getParam, List.find?_cons_of_pos]

/-- `getParam` on a cons whose head has another key. -/
theorem getParam_cons_ne {k k' : String} (hne : k' ≠ k) (v : PVal) (q : Params) :
    getParam ((k, v) :: q) k' = getParam q k' := by
  unfold getParam
  rw [List.find?_cons_of_neg _ (by simp; exact fun h => hne h.symm)]

/-- Under equal, duplicate-free key lists (in order), the spec's
partial-match test is exactly mapping equality. -/
theorem sharedKeysAgree_iff_eq : ∀ {p q : Params}, p.map Prod.fst = q.map Prod.fst →
    (p.map Prod.fst).Nodup → (sharedKeysAgree p q = true ↔ p = q) := by
  intro p
  induction p with
  | nil =>
    intro q hk _
    have : q = [] := List.map_eq_nil_iff.mp hk.symm
    subst this
    simp [sharedKeysAgree]
  | cons a p' ih =>
    intro q hk hnd
    cases q with
    | nil => cases hk
    | cons b q' =>
      obtain ⟨k, v⟩ := a
      obtain ⟨k2, v2⟩ := b
      simp only [List.map_cons, List.cons.injEq] at hk
      obtain ⟨hk0, hks⟩ := hk
      subst hk0
      rw [List.map_cons, List.nodup_cons] at hnd
      have hgq : ∀ kv : String × PVal, kv ∈ p' →
          (match getParam ((k, v2) :: q') kv.1 with
            | some w => decide (w = kv.2)
            | none => true)
          = (match getParam q' kv.1 with
            | some w => decide (w = kv.2)
            | none => true) := by
        intro kv hkv
        have hne : kv.1 ≠ k := by
          intro he
          have hm : kv.1 ∈ p'.map Prod.fst := List.mem_map_of_mem Prod.fst hkv
          rw [he] at hm
          exact hnd.1 hm
        rw [getParam_cons_ne hne]
      constructor
      · intro hall
        simp only [sharedKeysAgree, List.all_cons, Bool.and_eq_true] at hall
        obtain ⟨hhead, htail⟩ := hall
        rw [getParam_cons_self] at hhead
        have hv : v2 = v := of_decide_eq_true hhead
        subst hv
        have htail' : sharedKeysAgree p' q' = true := by
          unfold sharedKeysAgree
          rw [← all_congr_mem hgq]
          exact htail
        rw [(ih hks hnd.2).mp htail']
      · intro he
        injection he with he1 he2
        injection he1 with _ hv
        subst hv
        subst he2
        simp only [sharedKeysAgree, List.all_cons, Bool.and_eq_true]
        refine ⟨by rw [getParam_cons_self]; simp, ?_⟩
        rw [all_congr_mem hgq]
        exact (ih hks hnd.2).mpr rfl

/-- Two permutations with identical duplicate-free key lists are equal. -/
theorem eq_of_perm_of_sameKeys : ∀ {p q : Params}, p.Perm q →
    p.map Prod.fst = q.map Prod.fst → (p.map Prod.fst).Nodup → p = q := by
  intro p
  induction p with
  | nil =>
    intro q hp _ _
    exact hp.nil_eq
  | cons a p' ih =>
    intro q hp hk hnd
    cases q with
    | nil => cases hk
    | cons b q' =>
      obtain ⟨k, v⟩ := a
      obtain ⟨k2, v2⟩ := b
      simp only [List.map_cons, List.cons.injEq] at hk
      obtain ⟨hk0, hks⟩ := hk
      subst hk0
      rw [List.map_cons, List.nodup_cons] at hnd
      have hmem : (k, v) ∈ (k, v2) :: q' := hp.subset (List.mem_cons_self _ _)
      have hv : v = v2 := by
        rcases List.mem_cons.mp hmem with h | h
        · exact (Prod.mk.injEq .. ▸ h).2
        · exfalso
          refine hnd.1 ?_
          rw [hks]
          exact List.mem_map_of_mem Prod.fst h
      subst hv
      rw [ih hp.cons_inv hks hnd.2]

/-- Under equal, duplicate-free key lists, fingerprint equality is mapping
equality. -/
theorem generate_cache_key_eq_iff {p q : Params} (hk : p.map Prod.fst = q.map Prod.fst)
    (hnd : (p.map Prod.fst).Nodup) :
    generate_cache_key p = generate_cache_key q ↔ p = q := by
  constructor
  · intro h
    have hperm : p.Perm q :=
      (generate_cache_key_perm p).symm.trans (h ▸ generate_cache_key_perm q)
    exact eq_of_perm_of_sameKeys hperm hk hnd
  · intro h
    rw [h]

/-- C2, confirmed — reuse-path cache fallback: when no refresh trigger
holds, the orchestrator's cached lookup for the current parameters is
extensionally the spec's `find_by_params` partial-match linear scan
(`sharedKeysAgree` is "every key present in both parameter sets agrees"),
because every cache entry is keyed by the fingerprint of its own parameter
set and all parameter sets of one search type share the same fixed key
tuple; and when that lookup misses, the reuse path returns exactly the
forced fresh provider call's results — never a silently empty list. -/
theorem claim_C2_reuse_path_cache_fallback {α : Type} (cache : Cache α) (params : Params)
    (fresh : List α) (keys : List String)
    (hq : params.map Prod.fst = keys)
    (hnd : keys.Nodup)
    (hc : ∀ e ∈ cache, e.1 = generate_cache_key e.2.parameters
        ∧ e.2.parameters.map Prod.fst = keys) :
    turnSearch cache params (shouldRefresh false false false false) fresh
        = reuseLookup cache params fresh
    ∧ reuseLookup cache params fresh
        = (match find_by_params cache params with
            | some r => r
            | none => fresh)
    ∧ (find_by_params cache params = none →
        reuseLookup cache params fresh = fresh) := by
  have hpred : ∀ e ∈ cache,
      (decide (e.1 = generate_cache_key params)) = sharedKeysAgree e.2.parameters params := by
    intro e he
    obtain ⟨hk, hs⟩ := hc e he
    have hkeys : e.2.parameters.map Prod.fst = params.map Prod.fst := by rw [hs, hq]
    have hnd' : (e.2.parameters.map Prod.fst).Nodup := by rw [hs]; exact hnd
    by_cases heq : e.2.parameters = params
    · have h1 : sharedKeysAgree e.2.parameters params = true :=
        (sharedKeysAgree_iff_eq hkeys hnd').mpr heq
      have h2 : e.1 = generate_cache_key params := by rw [hk, heq]
      rw [h1, decide_eq_true h2]
    · have h1 : sharedKeysAgree e.2.parameters params = false := by
        rw [← Bool.not_eq_true]
        intro hx
        exact heq ((sharedKeysAgree_iff_eq hkeys hnd').mp hx)
      have h2 : e.1 ≠ generate_cache_key params := by
        rw [hk]
        intro hx
        exact heq ((generate_cache_key_eq_iff hkeys hnd').mp hx)
      rw [h1, decide_eq_false h2]
  have hfind : cache.find? (fun e => e.1 = generate_cache_key params)
      = cache.find? (fun e => sharedKeysAgree e.2.parameters params) :=
    find?_congr_mem hpred
  refine ⟨rfl, ?_, ?_⟩
  · unfold reuseLookup lookupFingerprint find_by_params
    rw [hfind]
    cases cache.find? (fun e => sharedKeysAgree e.2.parameters params) with
    | none => rfl
    | some e => rfl
  · intro hmiss
    unfold find_by_params at hmiss
    unfold reuseLookup lookupFingerprint
    rw [hfind]
    cases hfound : cache.find? (fun e => sharedKeysAgree e.2.parameters params) with
    | none => rfl
    | some e => rw [hfound] at hmiss; cases hmiss

/-- Witness for C2 at a one-entry hotel cache: a hit (the stored parameter
set), returning the cached results, and a miss (different adult count),
falling through to the forced fresh results. -/
theorem claim_C2_reuse_path_cache_fallback_witness :
    reuseLookup
        [(generate_cache_key [("location", PVal.s "Bali"), ("check_in_date", PVal.s "2025-06-01"),
            ("check_out_date", PVal.s "2025-06-08"), ("adults", PVal.n 1)],
          ⟨[("location", PVal.s "Bali"), ("check_in_date", PVal.s "2025-06-01"),
            ("check_out_date", PVal.s "2025-06-08"), ("adults", PVal.n 1)], [7]⟩)]
        [("location", PVal.s "Bali"), ("check_in_date", PVal.s "2025-06-01"),
          ("check_out_date", PVal.s "2025-06-08"), ("adults", PVal.n 1)] [9]
      = (match find_by_params
          [(generate_cache_key [("location", PVal.s "Bali"), ("check_in_date", PVal.s "2025-06-01"),
              ("check_out_date", PVal.s "2025-06-08"), ("adults", PVal.n 1)],
            ⟨[("location", PVal.s "Bali"), ("check_in_date", PVal.s "2025-06-01"),
              ("check_out_date", PVal.s "2025-06-08"), ("adults", PVal.n 1)], ([7] : List Nat)⟩)]
          [("location", PVal.s "Bali"), ("check_in_date", PVal.s "2025-06-01"),
            ("check_out_date", PVal.s "2025-06-08"), ("adults", PVal.n 1)] with
          | some r => r
          | none => [9])
    ∧ reuseLookup
        [(generate_cache_key [("location", PVal.s "Bali"), ("check_in_date", PVal.s "2025-06-01"),
            ("check_out_date", PVal.s "2025-06-08"), ("adults", PVal.n 1)],
          ⟨[("location", PVal.s "Bali"), ("check_in_date", PVal.s "2025-06-01"),
            ("check_out_date", PVal.s "2025-06-08"), ("adults", PVal.n 1)], [7]⟩)]
        [("location", PVal.s "Bali"), ("check_in_date", PVal.s "2025-06-01"),
          ("check_out_date", PVal.s "2025-06-08"), ("adults", PVal.n 1)] [9] = [7]
    ∧ reuseLookup
        [(generate_cache_key [("location", PVal.s "Bali"), ("check_in_date", PVal.s "2025-06-01"),
            ("check_out_date", PVal.s "2025-06-08"), ("adults", PVal.n 1)],
          ⟨[("location", PVal.s "Bali"), ("check_in_date", PVal.s "2025-06-01"),
            ("check_out_date", PVal.s "2025-06-08"), ("adults", PVal.n 1)], [7]⟩)]
        [("location", PVal.s "Bali"), ("check_in_date", PVal.s "2025-06-01"),
          ("check_out_date", PVal.s "2025-06-08"), ("adults", PVal.n 2)] [9] = [9] := by
  have happ := claim_C2_reuse_path_cache_fallback
    [(generate_cache_key [("location", PVal.s "Bali"), ("check_in_date", PVal.s "2025-06-01"),
        ("check_out_date", PVal.s "2025-06-08"), ("adults", PVal.n 1)],
      ⟨[("location", PVal.s "Bali"), ("check_in_date", PVal.s "2025-06-01"),
        ("check_out_date", PVal.s "2025-06-08"), ("adults", PVal.n 1)], ([7] : List Nat)⟩)]
    [("location", PVal.s "Bali"), ("check_in_date", PVal.s "2025-06-01"),
      ("check_out_date", PVal.s "2025-06-08"), ("adults", PVal.n 1)] [9]
    ["location", "check_in_date", "check_out_date", "adults"] rfl (by decide)
    (by
      intro e he
      rw [List.mem_singleton] at he
      subst he
      exact ⟨rfl, rfl⟩)
  have happ2 := claim_C2_reuse_path_cache_fallback
    [(generate_cache_key [("location", PVal.s "Bali"), ("check_in_date", PVal.s "2025-06-01"),
        ("check_out_date", PVal.s "2025-06-08"), ("adults", PVal.n 1)],
      ⟨[("location", PVal.s "Bali"), ("check_in_date", PVal.s "2025-06-01"),
        ("check_out_date", PVal.s "2025-06-08"), ("adults", PVal.n 1)], ([7] : List Nat)⟩)]
    [("location", PVal.s "Bali"), ("check_in_date", PVal.s "2025-06-01"),
      ("check_out_date", PVal.s "2025-06-08"), ("adults", PVal.n 2)] [9]
    ["location", "check_in_date", "check_out_date", "adults"] rfl (by decide)
    (by
      intro e he
      rw [List.mem_singleton] at he
      subst he
      exact ⟨rfl, rfl⟩)
  refine ⟨happ.2.1, ?_, happ2.2.2 (by decide)⟩
  rw [happ.2.1]
  decide

/-- C7, confirmed — provider-failure containment: the services' whole
bodies run under `try/except`, so whenever the body raises (provider call
or payload processing), the wrapper returns the empty result list with the
cache untouched; a provider-call exception with the cache bypassed
(`force_refresh`) always yields the empty list; and within one turn the two
search types are independent — a failing hotel search leaves the flight
search's results exactly what they are on their own, and vice versa. -/
theorem claim_C7_provider_failure_containment :
    (∀ (p : Params) (c : Cache HotelRec) (f : Bool) (r : Except Unit JVal),
      hotelSearchBody p c f r = .error () → search_hotels p c f r = ([], c))
    ∧ (∀ (p : Params) (c : Cache FlightRec) (f : Bool) (r : Except Unit JVal),
      flightSearchBody p c f r = .error () → search_flights p c f r = ([], c))
    ∧ (∀ (p : Params) (c : Cache HotelRec),
      search_hotels p c true (.error ()) = ([], c))
    ∧ (∀ (p : Params) (c : Cache FlightRec),
      search_flights p c true (.error ()) = ([], c))
    ∧ (∀ (hp fp : Params) (hc : Cache HotelRec) (fc : Cache FlightRec) (f : Bool)
        (fresp : Except Unit JVal),
      (turnProviderSearches hp fp hc fc f (.error ()) fresp).2 = search_flights fp fc f fresp
      ∧ (turnProviderSearches hp fp hc fc true (.error ()) fresp).1 = ([], hc))
    ∧ (∀ (hp fp : Params) (hc : Cache HotelRec) (fc : Cache FlightRec) (f : Bool)
        (hresp : Except Unit JVal),
      (turnProviderSearches hp fp hc fc f hresp (.error ())).1 = search_hotels hp hc f hresp
      ∧ (turnProviderSearches hp fp hc fc true hresp (.error ())).2 = ([], fc)) := by
  have hhot : ∀ (p : Params) (c : Cache HotelRec) (f : Bool) (r : Except Unit JVal),
      hotelSearchBody p c f r = .error () → search_hotels p c f r = ([], c) := by
    intro p c f r h
    unfold search_hotels
    rw [h]
  have hfl : ∀ (p : Params) (c : Cache FlightRec) (f : Bool) (r : Except Unit JVal),
      flightSearchBody p c f r = .error () → search_flights p c f r = ([], c) := by
    intro p c f r h
    unfold search_flights
    rw [h]
  refine ⟨hhot, hfl, ?_, ?_, ?_, ?_⟩
  · intro p c
    exact hhot p c true (.error ()) rfl
  · intro p c
    exact hfl p c true (.error ()) rfl
  · intro hp fp hc fc f fresp
    exact ⟨rfl, hhot hp hc true (.error ()) rfl⟩
  · intro hp fp hc fc f hresp
    exact ⟨rfl, hfl fp fc true (.error ()) rfl⟩

/-- Witness for C7: a raising provider call, and a payload-processing
exception (a non-dict element inside `properties` / `best_flights`, on
which `.get` raises) — both contained to an empty result list. -/
theorem claim_C7_provider_failure_containment_witness :
    search_hotels [] [] true (.error ()) = ([], [])
    ∧ search_flights [] [] true (.error ()) = ([], [])
    ∧ search_hotels [] [] true (.ok (.obj [("properties", .arr [.num 5])])) = ([], [])
    ∧ search_flights [] [] true (.ok (.obj [("best_flights", .arr [.num 5])])) = ([], []) := by
  obtain ⟨h1, h2, _, _, _, _⟩ := claim_C7_provider_failure_containment
  exact ⟨h1 [] [] true (.error ()) rfl, h2 [] [] true (.error ()) rfl,
    h1 [] [] true (.ok (.obj [("properties", .arr [.num 5])])) rfl,
    h2 [] [] true (.ok (.obj [("best_flights", .arr [.num 5])])) rfl⟩

/-- Decomposition of a successful `Except` bind. -/
theorem except_bind_ok {β γ : Type} {x : Except Unit β} {g : β → Except Unit γ} {r : γ}
    (h : x >>= g = .ok r) : ∃ b, x = .ok b ∧ g b = .ok r := by
  cases x with
  | error e => simp [Bind.bind, Except.bind] at h
  | ok b => exact ⟨b, rfl, by simpa [Bind.bind, Except.bind] using h⟩

/-- A successful `mapM` in `Except` preserves length. -/
theorem mapM_except_length {β γ : Type} {f : β → Except Unit γ} :
    ∀ {l : List β} {r : List γ}, l.mapM f = .ok r → r.length = l.length := by
  intro l
  induction l with
  | nil =>
    intro r h
    rw [List.mapM_nil] at h
    cases h
    rfl
  | cons a t ih =>
    intro r h
    rw [List.mapM_cons] at h
    obtain ⟨b, _, h⟩ := except_bind_ok h
    obtain ⟨bs, hbs, h⟩ := except_bind_ok h
    cases h
    simp [ih hbs]

/-- Every element of a successful `mapM` output comes from applying the
function to some input element. -/
theorem mapM_except_mem {β γ : Type} {f : β → Except Unit γ} :
    ∀ {l : List β} {r : List γ}, l.mapM f = .ok r →
      ∀ y ∈ r, ∃ b ∈ l, f b = .ok y := by
  intro l
  induction l with
  | nil =>
    intro r h
    rw [List.mapM_nil] at h
    cases h
    intro y hy
    cases hy
  | cons a t ih =>
    intro r h
    rw [List.mapM_cons] at h
    obtain ⟨b, hb, h⟩ := except_bind_ok h
    obtain ⟨bs, hbs, h⟩ := except_bind_ok h
    cases h
    intro y hy
    rcases List.mem_cons.mp hy with hy | hy
    · exact ⟨a, List.mem_cons_self a t, hy ▸ hb⟩
    · obtain ⟨b', hb', hfb'⟩ := ih hbs y hy
      exact ⟨b', List.mem_cons_of_mem a hb', hfb'⟩

/-- A slice `v[:n]` has at most `n` elements. -/
theorem jSlice_length {n : Nat} {v : JVal} {l : List JVal}
    (h : jSlice n v = .ok l) : l.length ≤ n := by
  cases v with
  | arr a =>
    cases h
    exact List.length_take_le n a
  | str s =>
    cases h
    simp
  | null => cases h
  | bool b => cases h
  | num m => cases h
  | obj o => cases h

/-- A fingerprint hit returns the entry of some cache binding. -/
theorem lookupFingerprint_mem {α : Type} {c : Cache α} {k : Params} {e : CacheEntry α}
    (h : lookupFingerprint c k = some e) : ∃ pr ∈ c, pr.2 = e := by
  unfold lookupFingerprint at h
  cases hf : c.find? (fun b => b.1 = k) with
  | none => rw [hf] at h; cases h
  | some pr =>
    rw [hf] at h
    exact ⟨pr, List.mem_of_find?_eq_some hf, by cases h; rfl⟩

/-- Every binding of a cache after insertion is an old binding or the new
one. -/
theorem cacheInsert_mem {α : Type} {c : Cache α} {k : Params} {en : CacheEntry α} :
    ∀ e ∈ cacheInsert c k en, e ∈ c ∨ e = (k, en) := by
  intro e he
  unfold cacheInsert at he
  by_cases hf : (c.find? (fun b => b.1 = k)).isSome
  · rw [if_pos hf] at he
    obtain ⟨b, hb, hbe⟩ := List.mem_map.mp he
    by_cases hk : b.1 = k
    · right
      rw [if_pos hk] at hbe
      exact hbe.symm
    · left
      rw [if_neg hk] at hbe
      exact hbe ▸ hb
  · rw [if_neg hf] at he
    rcases List.mem_append.mp he with h | h
    · exact Or.inl h
    · exact Or.inr (List.mem_singleton.mp h)

/-- A flight record built with a given type tag carries that tag. -/
theorem buildFlightInfo_type {t : String} {fd : JVal} {r : FlightRec}
    (h : buildFlightInfo t fd = .ok r) : r.type = t := by
  cases fd with
  | obj l =>
    unfold buildFlightInfo at h
    obtain ⟨airline, _, h⟩ := except_bind_ok h
    obtain ⟨duration, _, h⟩ := except_bind_ok h
    obtain ⟨stops, _, h⟩ := except_bind_ok h
    obtain ⟨dep, _, h⟩ := except_bind_ok h
    obtain ⟨arr, _, h⟩ := except_bind_ok h
    obtain ⟨lay, _, h⟩ := except_bind_ok h
    cases h
    rfl
  | null => cases h
  | bool b => cases h
  | num n => cases h
  | str s => cases h
  | arr a => cases h

/-- Bounds for one `best_flights` / `other_flights` branch of the flight
service: at most `n` records, all carrying type tag `t`. -/
theorem flightBranch_bound {data : JVal} {key : String} {n : Nat} {t : String}
    {out : List FlightRec}
    (h : flightBranch data key n t = .ok out) :
    out.length ≤ n ∧ ∀ x ∈ out, x.type = t := by
  unfold flightBranch at h
  obtain ⟨has, _, h⟩ := except_bind_ok h
  by_cases hh : has = true
  · rw [if_pos hh] at h
    obtain ⟨v, _, h⟩ := except_bind_ok h
    by_cases hv : pyTruthy v = true
    · rw [if_pos hv] at h
      obtain ⟨ln, hln, h⟩ := except_bind_ok h
      constructor
      · rw [mapM_except_length h]
        exact jSlice_length hln
      · intro x hx
        obtain ⟨b, _, hb⟩ := mapM_except_mem h x hx
        exact buildFlightInfo_type hb
    · rw [if_neg hv] at h
      cases h
      exact ⟨Nat.zero_le n, fun x hx => absurd hx (List.not_mem_nil x)⟩
  · rw [if_neg hh] at h
    cases h
    exact ⟨Nat.zero_le n, fun x hx => absurd hx (List.not_mem_nil x)⟩

/-- Hotel-side bound: a successful service body returns at most five
records and preserves the cache-wide bound. -/
theorem hotelSearchBody_bound {p : Params} {c : Cache HotelRec} {f : Bool}
    {r : Except Unit JVal} {res : List HotelRec} {c' : Cache HotelRec}
    (hc : ∀ e ∈ c, e.2.results.length ≤ 5)
    (h : hotelSearchBody p c f r = .ok (res, c')) :
    res.length ≤ 5 ∧ ∀ e ∈ c', e.2.results.length ≤ 5 := by
  unfold hotelSearchBody at h
  cases hlk : (if f then none else lookupFingerprint c (generate_cache_key p)) with
  | some e =>
    rw [hlk] at h
    cases h
    have hmem : ∃ pr ∈ c, pr.2 = e := by
      cases f with
      | true => cases hlk
      | false => exact lookupFingerprint_mem (by simpa using hlk)
    obtain ⟨pr, hpr, hpre⟩ := hmem
    exact ⟨hpre ▸ hc pr hpr, hc⟩
  | none =>
    rw [hlk] at h
    obtain ⟨data, _, h⟩ := except_bind_ok h
    obtain ⟨hasProps, _, h⟩ := except_bind_ok h
    by_cases hp0 : hasProps = true
    · rw [if_pos hp0] at h
      obtain ⟨propsVal, _, h⟩ := except_bind_ok h
      obtain ⟨list5, hl5, h⟩ := except_bind_ok h
      obtain ⟨hotels, hmapm, h⟩ := except_bind_ok h
      cases h
      have hlen : res.length ≤ 5 := by
        rw [mapM_except_length hmapm]
        exact jSlice_length hl5
      refine ⟨hlen, ?_⟩
      intro e he
      rcases cacheInsert_mem e he with hin | hnew
      · exact hc e hin
      · rw [hnew]
        exact hlen
    · rw [if_neg hp0] at h
      cases h
      exact ⟨Nat.zero_le 5, hc⟩

/-- Flight-side bound: a successful service body returns at most three
best and two alternative flights (at most five in total) and preserves the
cache-wide bound. -/
theorem flightSearchBody_bound {p : Params} {c : Cache FlightRec} {f : Bool}
    {r : Except Unit JVal} {res : List FlightRec} {c' : Cache FlightRec}
    (hc : ∀ e ∈ c, e.2.results.length ≤ 5
      ∧ (e.2.results.filter (fun x => x.type == "Best Flight")).length ≤ 3
      ∧ (e.2.results.filter (fun x => x.type == "Alternative Flight")).length ≤ 2)
    (h : flightSearchBody p c f r = .ok (res, c')) :
    (res.length ≤ 5
      ∧ (res.filter (fun x => x.type == "Best Flight")).length ≤ 3
      ∧ (res.filter (fun x => x.type == "Alternative Flight")).length ≤ 2)
    ∧ ∀ e ∈ c', e.2.results.length ≤ 5
      ∧ (e.2.results.filter (fun x => x.type == "Best Flight")).length ≤ 3
      ∧ (e.2.results.filter (fun x => x.type == "Alternative Flight")).length ≤ 2 := by
  unfold flightSearchBody at h
  cases hlk : (if f then none else lookupFingerprint c (generate_cache_key p)) with
  | some e =>
    rw [hlk] at h
    cases h
    have hmem : ∃ pr ∈ c, pr.2 = e := by
      cases f with
      | true => cases hlk
      | false => exact lookupFingerprint_mem (by simpa using hlk)
    obtain ⟨pr, hpr, hpre⟩ := hmem
    exact ⟨hpre ▸ hc pr hpr, hc⟩
  | none =>
    rw [hlk] at h
    obtain ⟨data, _, h⟩ := except_bind_ok h
    obtain ⟨best, hbest, h⟩ := except_bind_ok h
    obtain ⟨other, hother, h⟩ := except_bind_ok h
    have hbb := flightBranch_bound hbest
    have hob := flightBranch_bound hother
    have hflen : (best ++ other).length ≤ 5 := by
      rw [List.length_append]
      omega
    have hfbest : ((best ++ other).filter (fun x => x.type == "Best Flight")).length ≤ 3 := by
      rw [List.filter_append]
      have h1 : (best.filter (fun x => x.type == "Best Flight")).length ≤ best.length :=
        List.length_filter_le _ _
      have h2 : other.filter (fun x => x.type == "Best Flight") = [] := by
        refine List.filter_eq_nil_iff.mpr ?_
        intro x hx
        rw [hob.2 x hx]
        decide
      rw [h2]
      simp only [List.length_append, List.length_nil, Nat.add_zero]
      omega
    have hfalt : ((best ++ other).filter (fun x => x.type == "Alternative Flight")).length ≤ 2 := by
      rw [List.filter_append]
      have h1 : (other.filter (fun x => x.type == "Alternative Flight")).length ≤ other.length :=
        List.length_filter_le _ _
      have h2 : best.filter (fun x => x.type == "Alternative Flight") = [] := by
        refine List.filter_eq_nil_iff.mpr ?_
        intro x hx
        rw [hbb.2 x hx]
        decide
      rw [h2]
      simp only [List.length_append, List.length_nil, Nat.zero_add]
      omega
    by_cases hemp : (best ++ other).isEmpty = true
    · rw [if_pos hemp] at h
      cases h
      refine ⟨?_, hc⟩
      simp
    · rw [if_neg hemp] at h
      cases h
      refine ⟨⟨hflen, hfbest, hfalt⟩, ?_⟩
      intro e he
      rcases cacheInsert_mem e he with hin | hnew
      · exact hc e hin
      · rw [hnew]
        exact ⟨hflen, hfbest, hfalt⟩

/-- C10, confirmed — result-count bound: under the invariant that every
cached result list already satisfies the bound (which every write of the
services establishes), `search_hotels` returns at most 5 hotel records and
`search_flights` at most 5 flight records — at most 3 tagged "Best Flight"
and at most 2 tagged "Alternative Flight" — for every provider response,
however many entries the payload contains; and both leave the cache
satisfying the invariant. -/
theorem claim_C10_result_count_bound :
    (∀ (p : Params) (c : Cache HotelRec) (f : Bool) (r : Except Unit JVal),
      (∀ e ∈ c, e.2.results.length ≤ 5) →
      (search_hotels p c f r).1.length ≤ 5
      ∧ ∀ e ∈ (search_hotels p c f r).2, e.2.results.length ≤ 5)
    ∧ ∀ (p : Params) (c : Cache FlightRec) (f : Bool) (r : Except Unit JVal),
      (∀ e ∈ c, e.2.results.length ≤ 5
        ∧ (e.2.results.filter (fun x => x.type == "Best Flight")).length ≤ 3
        ∧ (e.2.results.filter (fun x => x.type == "Alternative Flight")).length ≤ 2) →
      ((search_flights p c f r).1.length ≤ 5
        ∧ ((search_flights p c f r).1.filter (fun x => x.type == "Best Flight")).length ≤ 3
        ∧ ((search_flights p c f r).1.filter
            (fun x => x.type == "Alternative Flight")).length ≤ 2)
      ∧ ∀ e ∈ (search_flights p c f r).2, e.2.results.length ≤ 5
        ∧ (e.2.results.filter (fun x => x.type == "Best Flight")).length ≤ 3
        ∧ (e.2.results.filter (fun x => x.type == "Alternative Flight")).length ≤ 2 := by
  constructor
  · intro p c f r hc
    unfold search_hotels
    cases hb : hotelSearchBody p c f r with
    | error e => exact ⟨Nat.zero_le 5, hc⟩
    | ok pr =>
      obtain ⟨res, c'⟩ := pr
      exact hotelSearchBody_bound hc hb
  · intro p c f r hc
    unfold search_flights
    cases hb : flightSearchBody p c f r with
    | error e =>
      refine ⟨⟨Nat.zero_le 5, ?_, ?_⟩, hc⟩ <;> simp
    | ok pr =>
      obtain ⟨res, c'⟩ := pr
      exact flightSearchBody_bound hc hb

/-- Witness for C10 at a payload with seven hotels and five best / three
alternative flights, all of which get truncated. -/
theorem claim_C10_result_count_bound_witness :
    (search_hotels [] [] true (.ok (.obj [("properties",
        .arr [.obj [], .obj [], .obj [], .obj [], .obj [], .obj [], .obj []])]))).1.length ≤ 5
    ∧ (search_flights [] [] true (.ok (.obj [("best_flights",
          .arr [.obj [], .obj [], .obj [], .obj [], .obj []]),
        ("other_flights", .arr [.obj [], .obj [], .obj []])]))).1.length ≤ 5
    ∧ ((search_flights [] [] true (.ok (.obj [("best_flights",
          .arr [.obj [], .obj [], .obj [], .obj [], .obj []]),
        ("other_flights", .arr [.obj [], .obj [], .obj []])]))).1.filter
        (fun x => x.type == "Best Flight")).length ≤ 3
    ∧ ((search_flights [] [] true (.ok (.obj [("best_flights",
          .arr [.obj [], .obj [], .obj [], .obj [], .obj []]),
        ("other_flights", .arr [.obj [], .obj [], .obj []])]))).1.filter
        (fun x => x.type == "Alternative Flight")).length ≤ 2 := by
  obtain ⟨hh, hf⟩ := claim_C10_result_count_bound
  have h1 := hh [] [] true (.ok (.obj [("properties",
    .arr [.obj [], .obj [], .obj [], .obj [], .obj [], .obj [], .obj []])]))
    (fun e he => absurd he (List.not_mem_nil e))
  have h2 := hf [] [] true (.ok (.obj [("best_flights",
      .arr [.obj [], .obj [], .obj [], .obj [], .obj []]),
    ("other_flights", .arr [.obj [], .obj [], .obj []])]))
    (fun e he => absurd he (List.not_mem_nil e))
  exact ⟨h1.1, h2.1.1, h2.1.2.1, h2.1.2.2⟩

/-- A key is absent from an object exactly when no binding's key matches. -/
theorem getJ_none_iff {l : List (String × JVal)} {k : String} :
    getJ l k = none ↔ l.any (fun kv => kv.1 == k) = false := by
  simp [getJ, List.find?_eq_none, List.any_eq_false]

/-- Lookup in a filtered record misses when every binding with the key is
dropped by the filter. -/
theorem getJ_filter_none {l : List (String × JVal)} {pred : String × JVal → Bool} {k : String}
    (h : ∀ kv ∈ l, kv.1 = k → pred kv = false) : getJ (l.filter pred) k = none := by
  unfold getJ
  rw [Option.map_eq_none']
  refine List.find?_eq_none.mpr ?_
  intro kv hkv hbeq
  obtain ⟨hmem, hpred⟩ := List.mem_filter.mp hkv
  rw [h kv hmem (by simpa using hbeq)] at hpred
  cases hpred

/-- Lookup in a filtered record finds the surviving binding of a key when
all bindings with that key carry the same value. -/
theorem getJ_filter_unique {l : List (String × JVal)} {pred : String × JVal → Bool}
    {k : String} {v : JVal}
    (hmem : (k, v) ∈ l.filter pred)
    (huniq : ∀ kv ∈ l, kv.1 = k → kv.2 = v) : getJ (l.filter pred) k = some v := by
  unfold getJ
  cases hf : (l.filter pred).find? (fun kv => kv.1 == k) with
  | none =>
    exfalso
    exact absurd (by simp) (List.find?_eq_none.mp hf (k, v) hmem)
  | some kv =>
    have hk : kv.1 = k := by simpa using List.find?_some hf
    have hkv : kv ∈ l := (List.mem_filter.mp (List.mem_of_find?_eq_some hf)).1
    simp [huniq kv hkv hk]

/-- `_extract_airline_name` on a dict without a `flights` key. -/
theorem extract_airline_name_absent {l : List (String × JVal)}
    (hany : l.any (fun kv => kv.1 == "flights") = false) :
    extract_airline_name (.obj l) = .ok (.str "Unknown") := by
  unfold extract_airline_name
  rw [show jHasKey (.obj l) "flights" = .ok false from by simp [jHasKey, hany]]
  rfl

/-- `_extract_departure_time` on a dict without a `flights` key. -/
theorem extract_departure_time_absent {l : List (String × JVal)}
    (hany : l.any (fun kv => kv.1 == "flights") = false) :
    extract_departure_time (.obj l) = .ok (.str "Unknown") := by
  unfold extract_departure_time
  rw [show jHasKey (.obj l) "flights" = .ok false from by simp [jHasKey, hany]]
  rfl

/-- `_extract_arrival_time` on a dict without a `flights` key. -/
theorem extract_arrival_time_absent {l : List (String × JVal)}
    (hany : l.any (fun kv => kv.1 == "flights") = false) :
    extract_arrival_time (.obj l) = .ok (.str "Unknown") := by
  unfold extract_arrival_time
  rw [show jHasKey (.obj l) "flights" = .ok false from by simp [jHasKey, hany]]
  rfl

/-- `_count_stops` on a dict with neither `layovers` nor `flights`. -/
theorem count_stops_absent {l : List (String × JVal)}
    (hlay : l.any (fun kv => kv.1 == "layovers") = false)
    (hfl : l.any (fun kv => kv.1 == "flights") = false) :
    count_stops (.obj l) = .ok "Direct" := by
  unfold count_stops
  rw [show jHasKey (.obj l) "layovers" = .ok false from by simp [jHasKey, hlay],
    show jHasKey (.obj l) "flights" = .ok false from by simp [jHasKey, hfl]]
  rfl

/-- `_extract_layover_info` on a dict without a `layovers` key. -/
theorem extract_layover_info_absent {l : List (String × JVal)}
    (hlay : l.any (fun kv => kv.1 == "layovers") = false) :
    extract_layover_info (.obj l) = .ok .null := by
  unfold extract_layover_info
  rw [show jHasKey (.obj l) "layovers" = .ok false from by simp [jHasKey, hlay]]
  rfl

/-- C8 counterexample — the claim says every field absent from the provider
payload maps to the "Unknown"/absent sentinel, but a hotel built from an
empty payload dict carries `rating = "No rating"`: the field is present in
the record and its value is neither "Unknown" nor absent. -/
theorem claim_C8_counterexample :
    buildHotelInfo (.obj [])
      = .ok [("rating", .str "No rating"), ("reviews", .str "No reviews")]
    ∧ getJ [("rating", JVal.str "No rating"), ("reviews", JVal.str "No reviews")] "rating"
        = some (.str "No rating")
    ∧ (JVal.str "No rating") ≠ .str "Unknown" := by
  refine ⟨rfl, rfl, by simp⟩

/-- C8, corrected — normalized-record fallback completeness: record
building is total on dict payload elements, and every normalized field
whose source keys are absent from the provider payload takes that field's
fixed fallback. For hotels the raw fallbacks null / "Unknown" / "" / `[]`
are then dropped by the sentinel filter (the field becomes absent), while
absent `rating` / `reviews` yield the kept strings "No rating" /
"No reviews"; every field present in a hotel record is one of the eleven
normalized names and never carries a dropped sentinel. For flights every
field is always present, with fallbacks null (price), "Unknown" (airline,
duration, departure and arrival times), "Direct" (stops) and null
(layovers). -/
theorem claim_C8_normalized_record_fallbacks :
    (∀ (h : List (String × JVal)) (r : HotelRec), buildHotelInfo (.obj h) = .ok r →
      (∀ k v, (k, v) ∈ r → k ∈ hotelFieldNames ∧ isDroppedSentinel v = false)
      ∧ (getJ h "name" = none → getJ r "name" = none)
      ∧ (getJ h "price" = none → getJ r "price" = none)
      ∧ (getJ h "price_description" = none → getJ r "price_per_night" = none)
      ∧ (getJ h "rating" = none → getJ r "rating" = some (.str "No rating"))
      ∧ (getJ h "reviews" = none → getJ r "reviews" = some (.str "No reviews"))
      ∧ (getJ h "stars" = none → getJ r "stars" = none)
      ∧ (getJ h "address" = none → getJ r "location" = none)
      ∧ (getJ h "thumbnail" = none → getJ r "thumbnail" = none)
      ∧ (getJ h "link" = none → getJ r "link" = none)
      ∧ (getJ h "type" = none → getJ h "highlight" = none → getJ r "description" = none)
      ∧ (getJ h "amenities" = none → getJ r "amenities" = none))
    ∧ (∀ (l : List (String × JVal)) (t : String) (r : FlightRec),
        buildFlightInfo t (.obj l) = .ok r →
      (getJ l "price" = none → r.price = .null)
      ∧ (getJ l "total_duration" = none → r.duration = "Unknown")
      ∧ (getJ l "flights" = none → r.airline = .str "Unknown"
          ∧ r.departure_time = .str "Unknown" ∧ r.arrival_time = .str "Unknown")
      ∧ (getJ l "layovers" = none → getJ l "flights" = none →
          r.stops = "Direct" ∧ r.layovers = .null))
    ∧ ∀ t, buildFlightInfo t (.obj [])
        = .ok ⟨t, .null, .str "Unknown", "Unknown", "Direct", .str "Unknown",
            .str "Unknown", .null⟩ := by
  refine ⟨?_, ?_, fun t => rfl⟩
  · intro h r hb
    unfold buildHotelInfo at hb
    obtain ⟨desc, hdesc, hb⟩ := except_bind_ok hb
    cases hb
    refine ⟨?_, ?_, ?_, ?_, ?_, ?_, ?_, ?_, ?_, ?_, ?_, ?_⟩
    · intro k v hkv
      obtain ⟨hmem, hpred⟩ := List.mem_filter.mp hkv
      refine ⟨?_, by simpa using hpred⟩
      simp only [rawHotelInfo, List.mem_cons, List.not_mem_nil, or_false,
        Prod.mk.injEq] at hmem
      rcases hmem with ⟨rfl, -⟩ | ⟨rfl, -⟩ | ⟨rfl, -⟩ | ⟨rfl, -⟩ | ⟨rfl, -⟩ | ⟨rfl, -⟩
        | ⟨rfl, -⟩ | ⟨rfl, -⟩ | ⟨rfl, -⟩ | ⟨rfl, -⟩ | ⟨rfl, -⟩ <;> decide
    · intro hnone
      apply getJ_filter_none
      intro kv hmem hk
      simp only [rawHotelInfo, List.mem_cons, List.not_mem_nil, or_false] at hmem
      rcases hmem with rfl | rfl | rfl | rfl | rfl | rfl | rfl | rfl | rfl | rfl | rfl <;>
        simp_all [isDroppedSentinel]
    · intro hnone
      apply getJ_filter_none
      intro kv hmem hk
      simp only [rawHotelInfo, List.mem_cons, List.not_mem_nil, or_false] at hmem
      rcases hmem with rfl | rfl | rfl | rfl | rfl | rfl | rfl | rfl | rfl | rfl | rfl <;>
        simp_all [extract_hotel_price, isDroppedSentinel]
    · intro hnone
      apply getJ_filter_none
      intro kv hmem hk
      simp only [rawHotelInfo, List.mem_cons, List.not_mem_nil, or_false] at hmem
      rcases hmem with rfl | rfl | rfl | rfl | rfl | rfl | rfl | rfl | rfl | rfl | rfl <;>
        simp_all [extract_hotel_price, isDroppedSentinel]
    · intro hnone
      refine getJ_filter_unique ?_ ?_
      · refine List.mem_filter.mpr ⟨?_, by decide⟩
        simp [rawHotelInfo, hnone, format_hotel_rating]
      · intro kv hkv hk
        simp only [rawHotelInfo, List.mem_cons, List.not_mem_nil, or_false] at hkv
        rcases hkv with rfl | rfl | rfl | rfl | rfl | rfl | rfl | rfl | rfl | rfl | rfl <;>
          simp_all [format_hotel_rating]
    · intro hnone
      refine getJ_filter_unique ?_ ?_
      · refine List.mem_filter.mpr ⟨?_, by decide⟩
        simp [rawHotelInfo, hnone, format_hotel_reviews]
      · intro kv hkv hk
        simp only [rawHotelInfo, List.mem_cons, List.not_mem_nil, or_false] at hkv
        rcases hkv with rfl | rfl | rfl | rfl | rfl | rfl | rfl | rfl | rfl | rfl | rfl <;>
          simp_all [format_hotel_reviews]
    · intro hnone
      apply getJ_filter_none
      intro kv hmem hk
      simp only [rawHotelInfo, List.mem_cons, List.not_mem_nil, or_false] at hmem
      rcases hmem with rfl | rfl | rfl | rfl | rfl | rfl | rfl | rfl | rfl | rfl | rfl <;>
        simp_all [isDroppedSentinel]
    · intro hnone
      apply getJ_filter_none
      intro kv hmem hk
      simp only [rawHotelInfo, List.mem_cons, List.not_mem_nil, or_false] at hmem
      rcases hmem with rfl | rfl | rfl | rfl | rfl | rfl | rfl | rfl | rfl | rfl | rfl <;>
        simp_all [isDroppedSentinel]
    · intro hnone
      apply getJ_filter_none
      intro kv hmem hk
      simp only [rawHotelInfo, List.mem_cons, List.not_mem_nil, or_false] at hmem
      rcases hmem with rfl | rfl | rfl | rfl | rfl | rfl | rfl | rfl | rfl | rfl | rfl <;>
        simp_all [isDroppedSentinel]
    · intro hnone
      apply getJ_filter_none
      intro kv hmem hk
      simp only [rawHotelInfo, List.mem_cons, List.not_mem_nil, or_false] at hmem
      rcases hmem with rfl | rfl | rfl | rfl | rfl | rfl | rfl | rfl | rfl | rfl | rfl <;>
        simp_all [isDroppedSentinel]
    · intro htype hhigh
      have hdn : extract_hotel_description h = .ok none := by
        simp [extract_hotel_description, htype, hhigh]
        rfl
      rw [hdn] at hdesc
      cases hdesc
      apply getJ_filter_none
      intro kv hmem hk
      simp only [rawHotelInfo, List.mem_cons, List.not_mem_nil, or_false] at hmem
      rcases hmem with rfl | rfl | rfl | rfl | rfl | rfl | rfl | rfl | rfl | rfl | rfl <;>
        simp_all [isDroppedSentinel]
    · intro hnone
      apply getJ_filter_none
      intro kv hmem hk
      simp only [rawHotelInfo, List.mem_cons, List.not_mem_nil, or_false] at hmem
      rcases hmem with rfl | rfl | rfl | rfl | rfl | rfl | rfl | rfl | rfl | rfl | rfl <;>
        simp_all [isDroppedSentinel]
  · intro l t r hb
    unfold buildFlightInfo at hb
    obtain ⟨airline, harl, hb⟩ := except_bind_ok hb
    obtain ⟨duration, hdur, hb⟩ := except_bind_ok hb
    obtain ⟨stops, hstops, hb⟩ := except_bind_ok hb
    obtain ⟨dep, hdep, hb⟩ := except_bind_ok hb
    obtain ⟨arr, harr, hb⟩ := except_bind_ok hb
    obtain ⟨lay, hlayv, hb⟩ := except_bind_ok hb
    cases hb
    refine ⟨?_, ?_, ?_, ?_⟩
    · intro hnone
      simp [hnone]
    · intro hnone
      rw [hnone] at hdur
      exact (Except.ok.inj hdur).symm
    · intro hnone
      have hany := getJ_none_iff.mp hnone
      rw [extract_airline_name_absent hany] at harl
      rw [extract_departure_time_absent hany] at hdep
      rw [extract_arrival_time_absent hany] at harr
      exact ⟨(Except.ok.inj harl).symm, (Except.ok.inj hdep).symm, (Except.ok.inj harr).symm⟩
    · intro hlay0 hfl0
      have hanyl := getJ_none_iff.mp hlay0
      have hanyf := getJ_none_iff.mp hfl0
      rw [count_stops_absent hanyl hanyf] at hstops
      rw [extract_layover_info_absent hanyl] at hlayv
      exact ⟨(Except.ok.inj hstops).symm, (Except.ok.inj hlayv).symm⟩

/-- Witness for C8 at empty payload dicts for a hotel and a flight. -/
theorem claim_C8_normalized_record_fallbacks_witness :
    getJ [("rating", JVal.str "No rating"), ("reviews", JVal.str "No reviews")] "name" = none
    ∧ getJ [("rating", JVal.str "No rating"), ("reviews", JVal.str "No reviews")] "rating"
        = some (.str "No rating")
    ∧ getJ [("rating", JVal.str "No rating"), ("reviews", JVal.str "No reviews")] "description"
        = none
    ∧ (⟨"Best Flight", .null, .str "Unknown", "Unknown", "Direct", .str "Unknown",
        .str "Unknown", .null⟩ : FlightRec).price = .null
    ∧ (⟨"Best Flight", .null, .str "Unknown", "Unknown", "Direct", .str "Unknown",
        .str "Unknown", .null⟩ : FlightRec).stops = "Direct" := by
  obtain ⟨hh, hf, ht⟩ := claim_C8_normalized_record_fallbacks
  obtain ⟨-, hname, -, -, hrating, -, -, -, -, -, hdescr, -⟩ :=
    hh [] [("rating", JVal.str "No rating"), ("reviews", JVal.str "No reviews")] rfl
  obtain ⟨hprice, -, -, hstops⟩ :=
    hf [] "Best Flight" ⟨"Best Flight", .null, .str "Unknown", "Unknown", "Direct",
      .str "Unknown", .str "Unknown", .null⟩ (ht "Best Flight")
  exact ⟨hname rfl, hrating rfl, hdescr rfl rfl, hprice rfl, (hstops rfl rfl).1⟩

end TripMate
